import Mathlib

/-!
# OCPP message codec: CustomerInformation and SetMonitoringBase

A shallow embedding of the generated message codecs of
`lib/ocpp/v2/messages/CustomerInformation.cpp` and
`lib/ocpp/v2/messages/SetMonitoringBase.cpp`, together with the part of the
JSON value library (`nlohmann::json`) that these functions call:
`at`, `contains`, `operator[]` assignment, construction of an object from an
initializer list and the conversions to `int32_t`, `bool` and `std::string`.

C++ exceptions are explicit results.  A `from_json` of a message takes the
target message by reference and assigns its fields one after the other, so the
embedding passes the target explicitly and records the state of the target at
the point where an exception leaves the function.

The exception classes and the declarations of `ocpp/common/types.hpp` and of
`ocpp/v16/messages/UpdateFirmware.hpp` are embedded as well.  What these
headers only declare (the timestamp functions, the boolean conversions, the
UpdateFirmware codec) and what they only use (the enumeration tables, the
bounded string) is modelled from the spec, and each such definition says so.
-/

namespace ocpp

/-! ## JSON values -/

/-- A JSON value as held by `nlohmann::json` after parsing a text: integers are
stored as `number_integer` (negative literals), `number_unsigned` (non-negative
literals) or `number_float` (the IEEE 754 binary64 bit pattern); an object is
the list of its members in key order. -/
inductive Json where
  | null : Json
  | boolean (b : Bool) : Json
  | number_integer (i : Int) : Json
  | number_unsigned (n : Nat) : Json
  | number_float (bits : Nat) : Json
  | string (s : String) : Json
  | array (elems : List Json) : Json
  | object (members : List (String × Json)) : Json

/-- The failures the decoders raise.  `out_of_range_403` is the exception of
`json::at` for an absent key, `type_error_304` the one of `at` on a value that
is not an object, `type_error_302` the one of a conversion applied to a value
of the wrong JSON type, `StringToEnumException` carries the two constructor
arguments of the exception of that name, `TimePointParseException` the
constructor argument of the exception of that name, and `other` stands for
whatever else a nested value decoder raises. -/
inductive DecodeError where
  | out_of_range_403 (key : String) : DecodeError
  | type_error_304 (type_name : String) : DecodeError
  | type_error_302 (expected : String) (type_name : String) : DecodeError
  | StringToEnumException (str : String) (type : String) : DecodeError
  | TimePointParseException (timepoint_str : String) : DecodeError
  | other (what : String) : DecodeError
  deriving DecidableEq, Repr

/-- The name `json::type_name` reports for a value. -/
def Json.type_name : Json → String
  | .null => "null"
  | .boolean _ => "boolean"
  | .number_integer _ => "number"
  | .number_unsigned _ => "number"
  | .number_float _ => "number"
  | .string _ => "string"
  | .array _ => "array"
  | .object _ => "object"

/-- Lookup of a key among the members of an object (`std::map::find`). -/
def find (key : String) : List (String × Json) → Option Json
  | [] => none
  | (k, v) :: rest => if key = k then some v else find key rest

/-- Insertion of a member, replacing the value of a key that is already there
and keeping the members in key order otherwise (`std::map::operator[]` followed
by an assignment); `std::string` keys are ordered lexicographically on their
characters. -/
def insert_or_assign (key : String) (val : Json) : List (String × Json) → List (String × Json)
  | [] => [(key, val)]
  | (k, v) :: rest =>
    if key = k then (key, val) :: rest
    else if key.toList < k.toList then (key, val) :: (k, v) :: rest
    else (k, v) :: insert_or_assign key val rest

/-- Member access `j.at(key)`: fails on a value that is not an object and on an
absent key. -/
def Json.at_ (j : Json) (key : String) : Except DecodeError Json :=
  match j with
  | .object members =>
    match find key members with
    | some v => .ok v
    | none => .error (.out_of_range_403 key)
  | other => .error (.type_error_304 other.type_name)

/-- Presence test `j.contains(key)`: false on a value that is not an object. -/
def Json.contains (j : Json) (key : String) : Bool :=
  match j with
  | .object members => (find key members).isSome
  | _ => false

/-- Assignment `j[key] = val` on an object or on null, which becomes an object;
the codecs apply it to objects only, any other value is left as it is. -/
def Json.set (j : Json) (key : String) (val : Json) : Json :=
  match j with
  | .object members => .object (insert_or_assign key val members)
  | .null => .object [(key, val)]
  | other => other

/-- The object built from an initializer list of key and value pairs: each pair
is emplaced in turn, and a key that is already there keeps its first value. -/
def Json.of_pairs (pairs : List (String × Json)) : Json :=
  .object (pairs.foldl
    (fun acc p => if (find p.1 acc).isSome then acc else insert_or_assign p.1 p.2 acc) [])

/-! ## Conversions to the primitive field types -/

/-- Reduction of an integer to the range of `int32_t`: what
`static_cast<int32_t>` gives for a 64-bit integer (the value modulo 2^32). -/
def wrap_int32 (i : Int) : Int := (i + 2 ^ 31) % 2 ^ 32 - 2 ^ 31

/-- The integer part of the double with the given bit pattern (rounding toward
zero, as `static_cast` does).  The cast of an infinity, of a NaN and of a
double whose integer part is outside `int32_t` is undefined in C++; the
embedding fixes 0 for the first two and reduces the last one with
`wrap_int32`. -/
def double_trunc (bits : Nat) : Int :=
  let negative := bits / 2 ^ 63 % 2 = 1
  let e := bits / 2 ^ 52 % 2 ^ 11
  let m := bits % 2 ^ 52
  let magnitude : Nat :=
    if e = 0 then 0
    else if e = 2047 then 0
    else if 1075 ≤ e then (2 ^ 52 + m) * 2 ^ (e - 1075)
    else (2 ^ 52 + m) / 2 ^ (1075 - e)
  if negative then - (magnitude : Int) else (magnitude : Int)

/-- Conversion of a JSON value to `int32_t`: every number and every boolean is
converted by a static cast, any other value is a type error. -/
def get_int32 : Json → Except DecodeError Int
  | .number_unsigned n => .ok (wrap_int32 n)
  | .number_integer i => .ok (wrap_int32 i)
  | .number_float bits => .ok (wrap_int32 (double_trunc bits))
  | .boolean b => .ok (if b then 1 else 0)
  | other => .error (.type_error_302 "number" other.type_name)

/-- Conversion of a JSON value to `bool`: only a JSON boolean is accepted. -/
def get_bool : Json → Except DecodeError Bool
  | .boolean b => .ok b
  | other => .error (.type_error_302 "boolean" other.type_name)

/-- Conversion of a JSON value to `std::string`: only a JSON string is
accepted. -/
def get_string : Json → Except DecodeError String
  | .string s => .ok s
  | other => .error (.type_error_302 "string" other.type_name)

/-- The values of `int32_t`. -/
def is_int32 (i : Int) : Prop := -(2 ^ 31) ≤ i ∧ i < 2 ^ 31

instance (i : Int) : Decidable (is_int32 i) := by
  unfold is_int32; infer_instance

/-! ## Results of a decoder that assigns into a target -/

/-- How a call `from_json(j, k)` ends: it returns with the target in state `k`,
or an exception `e` leaves it with the target in state `k`. -/
inductive Outcome (α : Type) where
  | returned (k : α) : Outcome α
  | threw (e : DecodeError) (k : α) : Outcome α

/-- Sequencing of two statements: the second runs on the target the first one
left, unless the first one threw. -/
def Outcome.and_then {α : Type} (o : Outcome α) (next : α → Outcome α) : Outcome α :=
  match o with
  | .returned k => next k
  | .threw e k => .threw e k

/-- The message a call returned with, if it returned. -/
def Outcome.result {α : Type} : Outcome α → Option α
  | .returned k => some k
  | .threw _ _ => none

/-- The exception a call threw, if it threw. -/
def Outcome.failure {α : Type} : Outcome α → Option DecodeError
  | .returned _ => none
  | .threw e _ => some e

/-- The statement `k.field = value;` where evaluating `value` may throw: the
field is stored only when the right-hand side was evaluated. -/
def assign {α β : Type} (value : Except DecodeError β) (store : α → β → α) (k : α) : Outcome α :=
  match value with
  | .ok v => .returned (store k v)
  | .error e => .threw e k

/-- The statement `if (j.contains(key)) { k.field.emplace(j.at(key)); }` on an
optional field: `emplace` first destroys the value the optional holds and then
constructs the new one from the JSON value, so a failing conversion leaves the
field empty. -/
def emplace_if_contains {α β : Type} (j : Json) (key : String)
    (decode : Json → Except DecodeError β) (store : α → Option β → α) (k : α) : Outcome α :=
  if j.contains key then
    match j.at_ key >>= decode with
    | .ok v => .returned (store k (some v))
    | .error e => .threw e (store k none)
  else .returned k

/-! ## Nested value types

The declarations of the value types of the optional fields
(`CertificateHashDataType`, `IdToken`, `CiString<64>`, `StatusInfo`,
`CustomData`) and their codecs are not part of the two translation units; the
message codecs only call them.  They are parameters of the embedding. -/

/-- The pair of conversions of a value type: `to_json` and the conversion of a
JSON value to the type, which may throw. -/
structure Codec (α : Type) where
  to_json : α → Json
  from_json : Json → Except DecodeError α

/-- A codec round-trips when decoding an encoded value gives the value back. -/
def Codec.round_trips {α : Type} (c : Codec α) : Prop :=
  ∀ a : α, c.from_json (c.to_json a) = .ok a

/-- The value types the two messages embed, each with its codec. -/
structure ValueTypes where
  CertificateHashDataType : Type
  IdToken : Type
  CiString64 : Type
  StatusInfo : Type
  CustomData : Type
  certificateHashDataType : Codec CertificateHashDataType
  idToken : Codec IdToken
  ciString64 : Codec CiString64
  statusInfo : Codec StatusInfo
  customData : Codec CustomData

/-- A codec of plain strings: a value is written as a JSON string and read
back from one. -/
def string_codec : Codec String where
  to_json := fun s => .string s
  from_json := get_string

/-- An instance of the value types on which the codecs can be evaluated: every
nested value is a plain string. -/
def string_values : ValueTypes where
  CertificateHashDataType := String
  IdToken := String
  CiString64 := String
  StatusInfo := String
  CustomData := String
  certificateHashDataType := string_codec
  idToken := string_codec
  ciString64 := string_codec
  statusInfo := string_codec
  customData := string_codec

/-! ## Enumerations -/

/-- Modelled from the spec: the enumeration `MonitoringBaseEnum`, declared in
`ocpp/v2/ocpp_enums.hpp`, which is not among the sources; a closed set of
protocol-defined tokens, here the ones of OCPP 2.0.1. -/
inductive MonitoringBaseEnum where
  | All
  | FactoryDefault
  | HardWiredOnly
  deriving DecidableEq, Repr

/-- Modelled from the spec: the enumeration `GenericDeviceModelStatusEnum`,
declared in `ocpp/v2/ocpp_enums.hpp`, which is not among the sources; a closed
set of protocol-defined tokens, here the ones of OCPP 2.0.1. -/
inductive GenericDeviceModelStatusEnum where
  | Accepted
  | Rejected
  | NotSupported
  | EmptyResultSet
  deriving DecidableEq, Repr

/-- Modelled from the spec: the enumeration `CustomerInformationStatusEnum`,
declared in `ocpp/v2/ocpp_enums.hpp`, which is not among the sources; a closed
set of protocol-defined tokens, here the ones of OCPP 2.0.1. -/
inductive CustomerInformationStatusEnum where
  | Accepted
  | Rejected
  | Invalid
  deriving DecidableEq, Repr

namespace conversions

/-- Modelled from the spec: `to_string` of `MonitoringBaseEnum` (the conversion
tables are not among the sources): total, every enumerator has its canonical
string. -/
def monitoring_base_enum_to_string : MonitoringBaseEnum → String
  | .All => "All"
  | .FactoryDefault => "FactoryDefault"
  | .HardWiredOnly => "HardWiredOnly"

/-- Modelled from the spec: `from_string` of `MonitoringBaseEnum` (the
conversion tables are not among the sources): exact match on the canonical
strings, any other string is an unknown-enumerator failure. -/
def string_to_monitoring_base_enum (s : String) : Except DecodeError MonitoringBaseEnum :=
  if s = "All" then .ok .All
  else if s = "FactoryDefault" then .ok .FactoryDefault
  else if s = "HardWiredOnly" then .ok .HardWiredOnly
  else .error (.StringToEnumException s "MonitoringBaseEnum")

/-- Modelled from the spec: `to_string` of `GenericDeviceModelStatusEnum` (the
conversion tables are not among the sources): total, every enumerator has its
canonical string. -/
def generic_device_model_status_enum_to_string : GenericDeviceModelStatusEnum → String
  | .Accepted => "Accepted"
  | .Rejected => "Rejected"
  | .NotSupported => "NotSupported"
  | .EmptyResultSet => "EmptyResultSet"

/-- Modelled from the spec: `from_string` of `GenericDeviceModelStatusEnum`
(the conversion tables are not among the sources): exact match on the canonical
strings, any other string is an unknown-enumerator failure. -/
def string_to_generic_device_model_status_enum (s : String) :
    Except DecodeError GenericDeviceModelStatusEnum :=
  if s = "Accepted" then .ok .Accepted
  else if s = "Rejected" then .ok .Rejected
  else if s = "NotSupported" then .ok .NotSupported
  else if s = "EmptyResultSet" then .ok .EmptyResultSet
  else .error (.StringToEnumException s "GenericDeviceModelStatusEnum")

/-- Modelled from the spec: `to_string` of `CustomerInformationStatusEnum` (the
conversion tables are not among the sources): total, every enumerator has its
canonical string. -/
def customer_information_status_enum_to_string : CustomerInformationStatusEnum → String
  | .Accepted => "Accepted"
  | .Rejected => "Rejected"
  | .Invalid => "Invalid"

/-- Modelled from the spec: `from_string` of `CustomerInformationStatusEnum`
(the conversion tables are not among the sources): exact match on the canonical
strings, any other string is an unknown-enumerator failure. -/
def string_to_customer_information_status_enum (s : String) :
    Except DecodeError CustomerInformationStatusEnum :=
  if s = "Accepted" then .ok .Accepted
  else if s = "Rejected" then .ok .Rejected
  else if s = "Invalid" then .ok .Invalid
  else .error (.StringToEnumException s "CustomerInformationStatusEnum")

end conversions

namespace v2

open conversions

/-! ## CustomerInformation -/

/-- The fields of a CustomerInformation request: `requestId` is an `int32_t`,
the last four fields are `std::optional`. -/
structure CustomerInformationRequest (T : ValueTypes) where
  requestId : Int
  report : Bool
  clear : Bool
  customerCertificate : Option T.CertificateHashDataType
  idToken : Option T.IdToken
  customerIdentifier : Option T.CiString64
  customData : Option T.CustomData

/-- The value-initialised request `json::get` hands to `from_json`. -/
def CustomerInformationRequest.default_constructed (T : ValueTypes) :
    CustomerInformationRequest T where
  requestId := 0
  report := false
  clear := false
  customerCertificate := none
  idToken := none
  customerIdentifier := none
  customData := none

/-- `CustomerInformationRequest::get_type`. -/
def CustomerInformationRequest.get_type {T : ValueTypes} (_k : CustomerInformationRequest T) :
    String :=
  "CustomerInformation"

/-- `to_json(json& j, const CustomerInformationRequest& k)`: `j` is overwritten
by the object of the required members, then the set optional members are
added. -/
def CustomerInformationRequest.to_json {T : ValueTypes} (_j : Json)
    (k : CustomerInformationRequest T) : Json :=
  let j := Json.of_pairs [
    ("requestId", .number_integer k.requestId),
    ("report", .boolean k.report),
    ("clear", .boolean k.clear)]
  let j := match k.customerCertificate with
    | some v => j.set "customerCertificate" (T.certificateHashDataType.to_json v)
    | none => j
  let j := match k.idToken with
    | some v => j.set "idToken" (T.idToken.to_json v)
    | none => j
  let j := match k.customerIdentifier with
    | some v => j.set "customerIdentifier" (T.ciString64.to_json v)
    | none => j
  match k.customData with
    | some v => j.set "customData" (T.customData.to_json v)
    | none => j

/-- `from_json(const json& j, CustomerInformationRequest& k)`: the three
required members are read with `at` and assigned in turn, then each optional
member is emplaced when the object contains its key. -/
def CustomerInformationRequest.from_json {T : ValueTypes} (j : Json)
    (k : CustomerInformationRequest T) : Outcome (CustomerInformationRequest T) :=
  (assign (j.at_ "requestId" >>= get_int32) (fun k v => { k with requestId := v }) k).and_then
  fun k =>
  (assign (j.at_ "report" >>= get_bool) (fun k v => { k with report := v }) k).and_then
  fun k =>
  (assign (j.at_ "clear" >>= get_bool) (fun k v => { k with clear := v }) k).and_then
  fun k =>
  (emplace_if_contains j "customerCertificate" T.certificateHashDataType.from_json
    (fun k v => { k with customerCertificate := v }) k).and_then
  fun k =>
  (emplace_if_contains j "idToken" T.idToken.from_json
    (fun k v => { k with idToken := v }) k).and_then
  fun k =>
  (emplace_if_contains j "customerIdentifier" T.ciString64.from_json
    (fun k v => { k with customerIdentifier := v }) k).and_then
  fun k =>
  emplace_if_contains j "customData" T.customData.from_json
    (fun k v => { k with customData := v }) k

/-- The fields of a CustomerInformation response. -/
structure CustomerInformationResponse (T : ValueTypes) where
  status : CustomerInformationStatusEnum
  statusInfo : Option T.StatusInfo
  customData : Option T.CustomData

/-- The value-initialised response `json::get` hands to `from_json`: the
enumerator of value 0 and empty optionals. -/
def CustomerInformationResponse.default_constructed (T : ValueTypes) :
    CustomerInformationResponse T where
  status := .Accepted
  statusInfo := none
  customData := none

/-- `CustomerInformationResponse::get_type`. -/
def CustomerInformationResponse.get_type {T : ValueTypes} (_k : CustomerInformationResponse T) :
    String :=
  "CustomerInformationResponse"

/-- `to_json(json& j, const CustomerInformationResponse& k)`. -/
def CustomerInformationResponse.to_json {T : ValueTypes} (_j : Json)
    (k : CustomerInformationResponse T) : Json :=
  let j := Json.of_pairs [
    ("status", .string (customer_information_status_enum_to_string k.status))]
  let j := match k.statusInfo with
    | some v => j.set "statusInfo" (T.statusInfo.to_json v)
    | none => j
  match k.customData with
    | some v => j.set "customData" (T.customData.to_json v)
    | none => j

/-- `from_json(const json& j, CustomerInformationResponse& k)`. -/
def CustomerInformationResponse.from_json {T : ValueTypes} (j : Json)
    (k : CustomerInformationResponse T) : Outcome (CustomerInformationResponse T) :=
  (assign (j.at_ "status" >>= get_string >>= string_to_customer_information_status_enum)
    (fun k v => { k with status := v }) k).and_then
  fun k =>
  (emplace_if_contains j "statusInfo" T.statusInfo.from_json
    (fun k v => { k with statusInfo := v }) k).and_then
  fun k =>
  emplace_if_contains j "customData" T.customData.from_json
    (fun k v => { k with customData := v }) k

/-! ## SetMonitoringBase -/

/-- The fields of a SetMonitoringBase request. -/
structure SetMonitoringBaseRequest (T : ValueTypes) where
  monitoringBase : MonitoringBaseEnum
  customData : Option T.CustomData

/-- The value-initialised request `json::get` hands to `from_json`. -/
def SetMonitoringBaseRequest.default_constructed (T : ValueTypes) :
    SetMonitoringBaseRequest T where
  monitoringBase := .All
  customData := none

/-- `SetMonitoringBaseRequest::get_type`. -/
def SetMonitoringBaseRequest.get_type {T : ValueTypes} (_k : SetMonitoringBaseRequest T) :
    String :=
  "SetMonitoringBase"

/-- `to_json(json& j, const SetMonitoringBaseRequest& k)`. -/
def SetMonitoringBaseRequest.to_json {T : ValueTypes} (_j : Json)
    (k : SetMonitoringBaseRequest T) : Json :=
  let j := Json.of_pairs [
    ("monitoringBase", .string (monitoring_base_enum_to_string k.monitoringBase))]
  match k.customData with
    | some v => j.set "customData" (T.customData.to_json v)
    | none => j

/-- `from_json(const json& j, SetMonitoringBaseRequest& k)`. -/
def SetMonitoringBaseRequest.from_json {T : ValueTypes} (j : Json)
    (k : SetMonitoringBaseRequest T) : Outcome (SetMonitoringBaseRequest T) :=
  (assign (j.at_ "monitoringBase" >>= get_string >>= string_to_monitoring_base_enum)
    (fun k v => { k with monitoringBase := v }) k).and_then
  fun k =>
  emplace_if_contains j "customData" T.customData.from_json
    (fun k v => { k with customData := v }) k

/-- The fields of a SetMonitoringBase response. -/
structure SetMonitoringBaseResponse (T : ValueTypes) where
  status : GenericDeviceModelStatusEnum
  statusInfo : Option T.StatusInfo
  customData : Option T.CustomData

/-- The value-initialised response `json::get` hands to `from_json`. -/
def SetMonitoringBaseResponse.default_constructed (T : ValueTypes) :
    SetMonitoringBaseResponse T where
  status := .Accepted
  statusInfo := none
  customData := none

/-- `SetMonitoringBaseResponse::get_type`. -/
def SetMonitoringBaseResponse.get_type {T : ValueTypes} (_k : SetMonitoringBaseResponse T) :
    String :=
  "SetMonitoringBaseResponse"

/-- `to_json(json& j, const SetMonitoringBaseResponse& k)`. -/
def SetMonitoringBaseResponse.to_json {T : ValueTypes} (_j : Json)
    (k : SetMonitoringBaseResponse T) : Json :=
  let j := Json.of_pairs [
    ("status", .string (generic_device_model_status_enum_to_string k.status))]
  let j := match k.statusInfo with
    | some v => j.set "statusInfo" (T.statusInfo.to_json v)
    | none => j
  match k.customData with
    | some v => j.set "customData" (T.customData.to_json v)
    | none => j

/-- `from_json(const json& j, SetMonitoringBaseResponse& k)`. -/
def SetMonitoringBaseResponse.from_json {T : ValueTypes} (j : Json)
    (k : SetMonitoringBaseResponse T) : Outcome (SetMonitoringBaseResponse T) :=
  (assign (j.at_ "status" >>= get_string >>= string_to_generic_device_model_status_enum)
    (fun k v => { k with status := v }) k).and_then
  fun k =>
  (emplace_if_contains j "statusInfo" T.statusInfo.from_json
    (fun k v => { k with statusInfo := v }) k).and_then
  fun k =>
  emplace_if_contains j "customData" T.customData.from_json
    (fun k v => { k with customData := v }) k

/-- The keys `from_json` of a CustomerInformation request looks at. -/
def CustomerInformationRequest.schema_keys : List String :=
  ["requestId", "report", "clear", "customerCertificate", "idToken", "customerIdentifier",
    "customData"]

/-- The keys `from_json` of a SetMonitoringBase response looks at. -/
def SetMonitoringBaseResponse.schema_keys : List String :=
  ["status", "statusInfo", "customData"]

/-- A wire object with further members assigned to it, one `j[key] = val` per
pair. -/
def with_members (extras : List (String × Json)) (j : Json) : Json :=
  extras.foldl (fun acc p => acc.set p.1 p.2) j

/-- A CustomerInformation request over `string_values` with two of its four
optional fields set. -/
def sample_customer_information_request : CustomerInformationRequest string_values where
  requestId := -42
  report := true
  clear := false
  customerCertificate := none
  idToken := some "token"
  customerIdentifier := none
  customData := some "vendor"

/-- A SetMonitoringBase request over `string_values`. -/
def sample_set_monitoring_base_request : SetMonitoringBaseRequest string_values where
  monitoringBase := .HardWiredOnly
  customData := some "vendor"

/-- A SetMonitoringBase response over `string_values`. -/
def sample_set_monitoring_base_response : SetMonitoringBaseResponse string_values where
  status := .EmptyResultSet
  statusInfo := some "info"
  customData := none

/-- A CustomerInformation response over `string_values`. -/
def sample_customer_information_response : CustomerInformationResponse string_values where
  status := .Invalid
  statusInfo := none
  customData := some "vendor"

/-- A wire object of a CustomerInformation request with the optional member
`customData`. -/
def sample_request_wire : Json :=
  .object [("clear", .boolean false), ("customData", .string "vendor"),
    ("report", .boolean true), ("requestId", .number_unsigned 42)]

/-- The members of a wire object that holds the required members of a
CustomerInformation request and of a SetMonitoringBase response. -/
def sample_members : List (String × Json) :=
  [("clear", .boolean false), ("report", .boolean true), ("requestId", .number_unsigned 42),
    ("status", .string "Rejected")]

/-- Members that are in neither schema. -/
def sample_extras : List (String × Json) :=
  [("vendorExtension", .object [("requestId", .null)]), ("Status", .string "Accepted")]

end v2

/-! ## Violations of the fields of a wire object

The notions the statements on failures are phrased in: the violation a single
member of a wire object is in, looked at on its own, and the first violation
in the order of the schema. -/

/-- The violation a required member is in: the exception that reading the
member with `at` and converting it raises, if it raises one. -/
def required_violation {β : Type} (j : Json) (key : String)
    (decode : Json → Except DecodeError β) : Option DecodeError :=
  match j.at_ key >>= decode with
  | .ok _ => none
  | .error e => some e

/-- The violation an optional member is in: none when the key is absent, the
violation of the member otherwise. -/
def optional_violation {β : Type} (j : Json) (key : String)
    (decode : Json → Except DecodeError β) : Option DecodeError :=
  if j.contains key then required_violation j key decode else none

/-- The first violation in a list of violations given field by field. -/
def first_violation : List (Option DecodeError) → Option DecodeError
  | [] => none
  | some e :: _ => some e
  | none :: rest => first_violation rest

/-- The violations of the seven fields of a CustomerInformation request in the
order of the schema. -/
def v2.CustomerInformationRequest.field_violations (T : ValueTypes) (j : Json) :
    List (Option DecodeError) :=
  [required_violation j "requestId" get_int32,
   required_violation j "report" get_bool,
   required_violation j "clear" get_bool,
   optional_violation j "customerCertificate" T.certificateHashDataType.from_json,
   optional_violation j "idToken" T.idToken.from_json,
   optional_violation j "customerIdentifier" T.ciString64.from_json,
   optional_violation j "customData" T.customData.from_json]

/-! ## The message of `StringToEnumException` -/

/-- The text a pointer to characters denotes when it is read as a C string:
the characters before the first NUL. -/
def c_str (s : String) : String :=
  String.mk (s.toList.takeWhile (fun c => c ≠ Char.ofNat 0))

/-- A `std::string_view`: a pointer into an array of characters and a length.
`storage` holds the characters of the array from the pointer on, and the view
is the first `size` of them. -/
structure string_view where
  storage : String
  size : Nat

/-- The characters of a view. -/
def string_view.to_string (view : string_view) : String :=
  String.mk (view.storage.toList.take view.size)

/-- The view of a `std::string` or of a string literal: the array holds the
characters of the string and a NUL after them. -/
def string_view.of_string (s : String) : string_view where
  storage := s.push (Char.ofNat 0)
  size := s.length

/-- What `data()` contributes when it is appended to a `std::string` as a C
string: the array is read from the pointer to its first NUL, whatever the
length of the view.  An array without a NUL is read to its end here; in C++
the read runs past the array. -/
def string_view.data (view : string_view) : String :=
  c_str view.storage

/-- The message `StringToEnumException(str, type)` is constructed with, from
`str.data()` and `type.data()`. -/
def StringToEnumException.what (str type : string_view) : String :=
  "Provided string \x27" ++ str.data ++ "\x27 could not be converted to " ++ type.data

/-- Whether a text begins with the given characters. -/
def starts_with : List Char → List Char → Bool
  | _, [] => true
  | [], _ :: _ => false
  | c :: text, d :: chars => c = d && starts_with text chars

/-- Whether the given characters occur consecutively somewhere in a text. -/
def occurs_in (chars : List Char) : List Char → Bool
  | [] => chars.isEmpty
  | c :: text => starts_with (c :: text) chars || occurs_in chars text

/-! ## Strings that nearly match -/

/-- The characters of a string without leading and trailing whitespace. -/
def trimmed (s : String) : List Char :=
  ((s.toList.dropWhile Char.isWhitespace).reverse.dropWhile Char.isWhitespace).reverse

/-- The string `s` differs from `t` only in the case of its letters. -/
def differs_only_in_case (s t : String) : Prop :=
  s ≠ t ∧ s.toList.map Char.toLower = t.toList.map Char.toLower

/-- The string `s` differs from `t` only by leading or trailing whitespace. -/
def differs_only_by_outer_whitespace (s t : String) : Prop :=
  s ≠ t ∧ trimmed s = t.toList

/-- A wire object of a SetMonitoringBase response whose two optional members
both hold values their decoders over `string_values` reject. -/
def sample_two_nested_failures : Json :=
  .object [("customData", .null), ("status", .string "Accepted"),
    ("statusInfo", .number_unsigned 5)]

/-! ## The message of `TimePointParseException` -/

/-- The member `msg` the constructor of `TimePointParseException` builds from
the string that did not parse, by `std::string` concatenation. -/
def TimePointParseException.msg (timepoint_str : String) : String :=
  "Timepoint string parsing failed. Could not convert: \x22" ++ timepoint_str ++
    "\x22 into DateTime."

/-- The C string `TimePointParseException::what` returns, `msg.c_str()`: the
characters of `msg` before the first NUL. -/
def TimePointParseException.what (timepoint_str : String) : String :=
  c_str (TimePointParseException.msg timepoint_str)

/-- A string with a NUL character between `a` and `b`. -/
def sample_string_with_nul_b : String := String.mk ['a', Char.ofNat 0, 'b']

/-- A string with a NUL character between `a` and `c`. -/
def sample_string_with_nul_c : String := String.mk ['a', Char.ofNat 0, 'c']

/-! ## Timestamps

`types.hpp` declares `DateTimeImpl` with its member `timepoint` and its member
functions; their definitions are not among the sources. -/

/-- A timestamp: the member `timepoint` of `DateTimeImpl`, an instant, held
here as the number of seconds since 1970-01-01T00:00:00Z (a rational, so that
fractions of a second are kept as the source string has them). -/
structure DateTime where
  timepoint : Rat

/-- Modelled from the spec: `DateTimeImpl::to_time_point`, declared in
`types.hpp` and defined outside the sources; it gives the wrapped instant. -/
def DateTime.to_time_point (dt : DateTime) : Rat := dt.timepoint

/-- Modelled from the spec: `operator>` of two timestamps, declared in
`types.hpp` and defined outside the sources; ordering is defined by the
underlying instant. -/
def DateTime.gt (lhs rhs : DateTime) : Bool := decide (lhs.to_time_point > rhs.to_time_point)

/-- Modelled from the spec: `operator>=` of two timestamps, declared in
`types.hpp` and defined outside the sources; ordering is defined by the
underlying instant. -/
def DateTime.ge (lhs rhs : DateTime) : Bool := decide (lhs.to_time_point ≥ rhs.to_time_point)

/-- Modelled from the spec: `operator<` of two timestamps, declared in
`types.hpp` and defined outside the sources; ordering is defined by the
underlying instant. -/
def DateTime.lt (lhs rhs : DateTime) : Bool := decide (lhs.to_time_point < rhs.to_time_point)

/-- Modelled from the spec: `operator<=` of two timestamps, declared in
`types.hpp` and defined outside the sources; ordering is defined by the
underlying instant. -/
def DateTime.le (lhs rhs : DateTime) : Bool := decide (lhs.to_time_point ≤ rhs.to_time_point)

/-- Modelled from the spec: `operator==` of two timestamps, declared in
`types.hpp` and defined outside the sources; ordering is defined by the
underlying instant. -/
def DateTime.eq (lhs rhs : DateTime) : Bool := decide (lhs.to_time_point = rhs.to_time_point)

/-- The value of a decimal digit. -/
def digit_value (c : Char) : Option Nat :=
  if c.isDigit then some (c.toNat - 48) else none

/-- Reads exactly `count` decimal digits: their value and the characters that
follow. -/
def read_digits : Nat → List Char → Option (Nat × List Char)
  | 0, chars => some (0, chars)
  | _ + 1, [] => none
  | count + 1, c :: chars =>
    match digit_value c, read_digits count chars with
    | some d, some (v, rest) => some (d * 10 ^ count + v, rest)
    | _, _ => none

/-- Reads one character that satisfies a test. -/
def read_char (test : Char → Bool) : List Char → Option (List Char)
  | [] => none
  | c :: chars => if test c then some chars else none

/-- Reads the optional fraction of a second, a dot followed by one digit or
more: the fraction as numerator and number of digits, and the characters that
follow. -/
def read_fraction : List Char → Option (Nat × Nat × List Char)
  | [] => some (0, 0, [])
  | c :: chars =>
    if c = Char.ofNat 46 then
      let digits := chars.takeWhile Char.isDigit
      match read_digits digits.length chars with
      | some (v, rest) => if digits.length = 0 then none else some (v, digits.length, rest)
      | none => none
    else some (0, 0, c :: chars)

/-- Reads the time offset that ends a timestamp, `Z` or a sign with hours and
minutes: the offset from UTC in seconds. -/
def read_offset : List Char → Option Int
  | [] => none
  | [c] => if c = Char.ofNat 90 ∨ c = Char.ofNat 122 then some 0 else none
  | sign :: chars =>
    match read_digits 2 chars with
    | some (hours, rest) =>
      match read_char (fun c => c = Char.ofNat 58) rest with
      | some rest =>
        match read_digits 2 rest with
        | some (minutes, []) =>
          if hours ≤ 23 ∧ minutes ≤ 59 then
            if sign = Char.ofNat 43 then some ((hours * 3600 + minutes * 60 : Nat) : Int)
            else if sign = Char.ofNat 45 then some (-((hours * 3600 + minutes * 60 : Nat) : Int))
            else none
          else none
        | _ => none
      | none => none
    | none => none

/-- Whether a year of the Gregorian calendar is a leap year. -/
def is_leap_year (year : Nat) : Bool :=
  year % 4 = 0 ∧ (year % 100 ≠ 0 ∨ year % 400 = 0)

/-- The number of days of a month. -/
def days_in_month (year month : Nat) : Nat :=
  if month = 2 then (if is_leap_year year then 29 else 28)
  else if month = 4 ∨ month = 6 ∨ month = 9 ∨ month = 11 then 30
  else 31

/-- The number of days from 1970-01-01 to a day of the Gregorian calendar. -/
def days_from_civil (year month day : Nat) : Int :=
  let y : Int := if month ≤ 2 then (year : Int) - 1 else year
  let era : Int := y / 400
  let yoe : Int := y - era * 400
  let mp : Int := if month ≤ 2 then (month : Int) + 9 else (month : Int) - 3
  let doy : Int := (153 * mp + 2) / 5 + (day : Int) - 1
  let doe : Int := yoe * 365 + yoe / 4 - yoe / 100 + doy
  era * 146097 + doe - 719468

/-- The fields of a timestamp text of RFC 3339,
`YYYY-MM-DDThh:mm:ss[.fraction](Z|±hh:mm)`, when the text is conformant: the
seconds from 1970-01-01T00:00:00Z to the instant, without the fraction, and
the fraction as numerator and number of digits.  Leap seconds are not
represented: a second field of 60 is not accepted. -/
def rfc3339_fields (chars : List Char) : Option (Int × Nat × Nat) :=
  match read_digits 4 chars with
  | none => none
  | some (year, rest) =>
  match read_char (fun c => c = Char.ofNat 45) rest with
  | none => none
  | some rest =>
  match read_digits 2 rest with
  | none => none
  | some (month, rest) =>
  match read_char (fun c => c = Char.ofNat 45) rest with
  | none => none
  | some rest =>
  match read_digits 2 rest with
  | none => none
  | some (day, rest) =>
  match read_char (fun c => c = Char.ofNat 84 ∨ c = Char.ofNat 116) rest with
  | none => none
  | some rest =>
  match read_digits 2 rest with
  | none => none
  | some (hour, rest) =>
  match read_char (fun c => c = Char.ofNat 58) rest with
  | none => none
  | some rest =>
  match read_digits 2 rest with
  | none => none
  | some (minute, rest) =>
  match read_char (fun c => c = Char.ofNat 58) rest with
  | none => none
  | some rest =>
  match read_digits 2 rest with
  | none => none
  | some (second, rest) =>
  match read_fraction rest with
  | none => none
  | some (numerator, digits, rest) =>
  match read_offset rest with
  | none => none
  | some offset =>
    if 1 ≤ month ∧ month ≤ 12 ∧ 1 ≤ day ∧ day ≤ days_in_month year month ∧
        hour ≤ 23 ∧ minute ≤ 59 ∧ second ≤ 59 then
      some (days_from_civil year month day * 86400 +
        ((hour * 3600 + minute * 60 + second : Nat) : Int) - offset, numerator, digits)
    else none

/-- Modelled from the spec: `DateTimeImpl::from_rfc3339`, declared in
`types.hpp` and defined outside the sources: `parse` accepts a conformant
RFC 3339 text, with or without a fraction of a second and with `Z` or a
numeric offset, and normalises it to UTC; any other text is a failure that
carries the text. -/
def DateTime.from_rfc3339 (timepoint_str : String) : Except DecodeError DateTime :=
  match rfc3339_fields timepoint_str.toList with
  | some (seconds, numerator, digits) =>
    .ok { timepoint := (seconds : Rat) + (numerator : Rat) / (10 : Rat) ^ digits }
  | none => .error (.TimePointParseException timepoint_str)

/-- Modelled from the spec: the constructor `DateTime(const std::string&)`,
declared in `types.hpp` and defined outside the sources: construction from a
wire string parses it. -/
def DateTime.of_string (timepoint_str : String) : Except DecodeError DateTime :=
  DateTime.from_rfc3339 timepoint_str

/-! ## Bounded strings

`types.hpp` uses `CiString<N>` for the fields of `CertificateHashDataType`;
its declaration, `ocpp/common/cistring.hpp`, is not among the sources. -/

/-- Modelled from the spec: the failure of constructing a bounded string from
a string that is longer than the bound (`cistring.hpp` is not among the
sources). -/
inductive LengthViolation where
  | too_long (length max_len : Nat) : LengthViolation
  deriving DecidableEq, Repr

/-- Modelled from the spec: a bounded identifier string, `CiString<N>`
(`cistring.hpp` is not among the sources): a string whose length is at most
`N` at all times. -/
structure CiString (N : Nat) where
  data : String
  within_bound : data.length ≤ N

/-- Modelled from the spec: construction of a bounded string,
`make(s, max_len)` (`cistring.hpp` is not among the sources): the string
itself when its length is within the bound, a length violation otherwise, no
truncation. -/
def CiString.make (N : Nat) (s : String) : Except LengthViolation (CiString N) :=
  if h : s.length ≤ N then .ok { data := s, within_bound := h }
  else .error (.too_long s.length N)

namespace conversions

/-- Modelled from the spec: `bool_to_string`, declared in `types.hpp` and
defined outside the sources; its declaration documents a string
representation of `true` or `false`. -/
def bool_to_string (b : Bool) : String :=
  if b then "true" else "false"

/-- Modelled from the spec: `string_to_bool`, declared in `types.hpp` and
defined outside the sources; its declaration documents that `true` is
converted into true and anything else to false. -/
def string_to_bool (s : String) : Bool :=
  decide (s = "true")

end conversions

/-! ## UpdateFirmware of OCPP 1.6

`ocpp/v16/messages/UpdateFirmware.hpp` declares the request and its codec
functions; the definitions of the codec functions are not among the
sources. -/

namespace v16

/-- The fields of an UpdateFirmware request as `UpdateFirmware.hpp` declares
them: `retries` and `retryInterval` are `std::optional<int32_t>`. -/
structure UpdateFirmwareRequest where
  location : String
  retrieveDate : DateTime
  retries : Option Int
  retryInterval : Option Int

/-- A default-constructed request; the default constructor of `DateTime`
takes the current time, which is a parameter here. -/
def UpdateFirmwareRequest.default_constructed (now : DateTime) : UpdateFirmwareRequest where
  location := ""
  retrieveDate := now
  retries := none
  retryInterval := none

/-- Modelled from the spec: `to_json(json&, const UpdateFirmwareRequest&)`,
declared in `UpdateFirmware.hpp` and defined outside the sources: the required
fields are always emitted, an optional field only when it is set, timestamps
through their formatter, which is a parameter here. -/
def UpdateFirmwareRequest.to_json (to_rfc3339 : DateTime → String) (_j : Json)
    (k : UpdateFirmwareRequest) : Json :=
  let j := Json.of_pairs [
    ("location", .string k.location),
    ("retrieveDate", .string (to_rfc3339 k.retrieveDate))]
  let j := match k.retries with
    | some v => j.set "retries" (.number_integer v)
    | none => j
  match k.retryInterval with
    | some v => j.set "retryInterval" (.number_integer v)
    | none => j

/-- Modelled from the spec: the step of `from_json` for the required field
`location` (the definition of `from_json` is not among the sources): the
member is read by its exact name, an absent one being a failure that names
it, and converted to a string. -/
def UpdateFirmwareRequest.read_location (j : Json) (k : UpdateFirmwareRequest) :
    Outcome UpdateFirmwareRequest :=
  assign (j.at_ "location" >>= get_string) (fun k v => { k with location := v }) k

/-- Modelled from the spec: the step of `from_json` for the required field
`retrieveDate` (the definition of `from_json` is not among the sources): the
member is read by its exact name, an absent one being a failure that names
it, and converted by the timestamp parser. -/
def UpdateFirmwareRequest.read_retrieveDate (j : Json) (k : UpdateFirmwareRequest) :
    Outcome UpdateFirmwareRequest :=
  assign (j.at_ "retrieveDate" >>= get_string >>= DateTime.of_string)
    (fun k v => { k with retrieveDate := v }) k

/-- Modelled from the spec: the step of `from_json` for the optional field
`retries` (the definition of `from_json` is not among the sources): the field
is set when its key is present. -/
def UpdateFirmwareRequest.read_retries (j : Json) (k : UpdateFirmwareRequest) :
    Outcome UpdateFirmwareRequest :=
  emplace_if_contains j "retries" get_int32 (fun k v => { k with retries := v }) k

/-- Modelled from the spec: the step of `from_json` for the optional field
`retryInterval` (the definition of `from_json` is not among the sources): the
field is set when its key is present. -/
def UpdateFirmwareRequest.read_retryInterval (j : Json) (k : UpdateFirmwareRequest) :
    Outcome UpdateFirmwareRequest :=
  emplace_if_contains j "retryInterval" get_int32 (fun k v => { k with retryInterval := v }) k

/-- Modelled from the spec: `from_json(const json&, UpdateFirmwareRequest&)`,
declared in `UpdateFirmware.hpp` and defined outside the sources: the required
fields are read first, then the optional ones, and the first failure ends the
call.  Neither the spec nor the header fixes the order in which the two
required fields, and the two optional fields, are read: both orders are
parameters. -/
def UpdateFirmwareRequest.from_json (location_first retries_first : Bool) (j : Json)
    (k : UpdateFirmwareRequest) : Outcome UpdateFirmwareRequest :=
  (if location_first then
    (UpdateFirmwareRequest.read_location j k).and_then
      (UpdateFirmwareRequest.read_retrieveDate j)
  else
    (UpdateFirmwareRequest.read_retrieveDate j k).and_then
      (UpdateFirmwareRequest.read_location j)).and_then
  fun k =>
  if retries_first then
    (UpdateFirmwareRequest.read_retries j k).and_then
      (UpdateFirmwareRequest.read_retryInterval j)
  else
    (UpdateFirmwareRequest.read_retryInterval j k).and_then
      (UpdateFirmwareRequest.read_retries j)

end v16

/-! ## Objects as the JSON library holds them -/

/-- The members of an object are held in a `std::map`: their keys are strictly
increasing. -/
def strictly_increasing_keys (members : List (String × Json)) : Prop :=
  members.Pairwise (fun p q => p.1.toList < q.1.toList)

/-- The members of the wire object of the first concrete scenario, `requestId`
42, `report` true, `clear` false, as a parser of JSON text holds them. -/
def sample_required_members : List (String × Json) :=
  [("clear", .boolean false), ("report", .boolean true), ("requestId", .number_unsigned 42)]

/-- An output object that holds a member before `to_json` is called. -/
def sample_previous_output : Json :=
  .object [("requestId", .string "stale"), ("stale", .boolean true)]

/-! ## Keys of the encoded messages -/

/-- The keys `to_json` of a CustomerInformation response and of a
SetMonitoringBase response can emit. -/
def v2.response_keys : List String := ["status", "statusInfo", "customData"]

/-- The keys `to_json` of a SetMonitoringBase request can emit. -/
def v2.SetMonitoringBaseRequest.schema_keys : List String := ["monitoringBase", "customData"]

/-- A target of decoding whose `customData` and `idToken` are already set. -/
def v2.sample_target : v2.CustomerInformationRequest string_values where
  requestId := 7
  report := false
  clear := true
  customerCertificate := none
  idToken := some "old token"
  customerIdentifier := none
  customData := some "old vendor"

/-! ## Security events

The identifiers of `namespace security_events` of `types.hpp`. -/

namespace security_events

/-- `security_events::FIRMWARE_UPDATED`. -/
def FIRMWARE_UPDATED : String := "FirmwareUpdated"

/-- `security_events::FAILEDTOAUTHENTICATEATCSMS`. -/
def FAILEDTOAUTHENTICATEATCSMS : String := "FailedToAuthenticateAtCsms"

/-- `security_events::CSMSFAILEDTOAUTHENTICATE`. -/
def CSMSFAILEDTOAUTHENTICATE : String := "CsmsFailedToAuthenticate"

/-- `security_events::CSRGENERATIONFAILED`. -/
def CSRGENERATIONFAILED : String := "CSRGenerationFailed"

/-- `security_events::SETTINGSYSTEMTIME`. -/
def SETTINGSYSTEMTIME : String := "SettingSystemTime"

/-- `security_events::RESET_OR_REBOOT`. -/
def RESET_OR_REBOOT : String := "ResetOrReboot"

/-- `security_events::STARTUP_OF_THE_DEVICE`. -/
def STARTUP_OF_THE_DEVICE : String := "StartupOfTheDevice"

/-- `security_events::SECURITYLOGWASCLEARED`. -/
def SECURITYLOGWASCLEARED : String := "SecurityLogWasCleared"

/-- `security_events::RECONFIGURATIONOFSECURITYPARAMETERS`. -/
def RECONFIGURATIONOFSECURITYPARAMETERS : String := "ReconfigurationOfSecurityParameters"

/-- `security_events::MEMORYEXHAUSTION`. -/
def MEMORYEXHAUSTION : String := "MemoryExhaustion"

/-- `security_events::INVALIDMESSAGES`. -/
def INVALIDMESSAGES : String := "InvalidMessages"

/-- `security_events::ATTEMPTEDREPLAYATTACKS`. -/
def ATTEMPTEDREPLAYATTACKS : String := "AttemptedReplayAttacks"

/-- `security_events::TAMPERDETECTIONACTIVATED`. -/
def TAMPERDETECTIONACTIVATED : String := "TamperDetectionActivated"

/-- `security_events::INVALIDFIRMWARESIGNATURE`. -/
def INVALIDFIRMWARESIGNATURE : String := "InvalidFirmwareSignature"

/-- `security_events::INVALIDFIRMWARESIGNINGCERTIFICATE`. -/
def INVALIDFIRMWARESIGNINGCERTIFICATE : String := "InvalidFirmwareSigningCertificate"

/-- `security_events::INVALIDCSMSCERTIFICATE`. -/
def INVALIDCSMSCERTIFICATE : String := "InvalidCsmsCertificate"

/-- `security_events::INVALIDCENTRALSYSTEMCERTIFICATE`. -/
def INVALIDCENTRALSYSTEMCERTIFICATE : String := "InvalidCentralSystemCertificate"

/-- `security_events::INVALIDCHARGINGSTATIONCERTIFICATE`. -/
def INVALIDCHARGINGSTATIONCERTIFICATE : String := "InvalidChargingStationCertificate"

/-- `security_events::INVALIDCHARGEPOINTCERTIFICATE`. -/
def INVALIDCHARGEPOINTCERTIFICATE : String := "InvalidChargePointCertificate"

/-- `security_events::INVALIDTLSVERSION`. -/
def INVALIDTLSVERSION : String := "InvalidTLSVersion"

/-- `security_events::INVALIDTLSCIPHERSUITE`. -/
def INVALIDTLSCIPHERSUITE : String := "InvalidTLSCipherSuite"

/-- `security_events::MAINTENANCELOGINACCEPTED`. -/
def MAINTENANCELOGINACCEPTED : String := "MaintenanceLoginAccepted"

/-- `security_events::MAINTENANCELOGINFAILED`. -/
def MAINTENANCELOGINFAILED : String := "MaintenanceLoginFailed"

/-- The identifiers in the order of their definition. -/
def identifiers : List String :=
  [FIRMWARE_UPDATED, FAILEDTOAUTHENTICATEATCSMS, CSMSFAILEDTOAUTHENTICATE,
   CSRGENERATIONFAILED, SETTINGSYSTEMTIME, RESET_OR_REBOOT, STARTUP_OF_THE_DEVICE,
   SECURITYLOGWASCLEARED, RECONFIGURATIONOFSECURITYPARAMETERS, MEMORYEXHAUSTION,
   INVALIDMESSAGES, ATTEMPTEDREPLAYATTACKS, TAMPERDETECTIONACTIVATED,
   INVALIDFIRMWARESIGNATURE, INVALIDFIRMWARESIGNINGCERTIFICATE, INVALIDCSMSCERTIFICATE,
   INVALIDCENTRALSYSTEMCERTIFICATE, INVALIDCHARGINGSTATIONCERTIFICATE,
   INVALIDCHARGEPOINTCERTIFICATE, INVALIDTLSVERSION, INVALIDTLSCIPHERSUITE,
   MAINTENANCELOGINACCEPTED, MAINTENANCELOGINFAILED]

end security_events

/-! ## Required members of the wrong JSON type -/

/-- The JSON types of which the conversion to `int32_t` accepts no value:
string, null, array and object. -/
def Json.is_not_numeric : Json → Bool
  | .string _ => true
  | .null => true
  | .array _ => true
  | .object _ => true
  | _ => false

/-- Whether a value is a JSON boolean. -/
def Json.is_boolean : Json → Bool
  | .boolean _ => true
  | _ => false

/-- Whether a text ends with the given characters. -/
def ends_with (text chars : List Char) : Bool :=
  starts_with text.reverse chars.reverse

/-! ## Lemmas on the JSON operations -/

theorem wrap_int32_of_is_int32 {i : Int} (h : is_int32 i) : wrap_int32 i = i := by
  unfold is_int32 at h
  unfold wrap_int32
  omega

theorem find_insert_or_assign_self (key : String) (val : Json) (l : List (String × Json)) :
    find key (insert_or_assign key val l) = some val := by
  induction l with
  | nil => simp [insert_or_assign, find]
  | cons p rest ih =>
    obtain ⟨k, v⟩ := p
    unfold insert_or_assign
    split
    · simp [find]
    · split
      · simp [find]
      · rename_i h _
        simp [find, h, ih]

theorem find_insert_or_assign_of_ne {key other : String} (h : other ≠ key) (val : Json)
    (l : List (String × Json)) :
    find other (insert_or_assign key val l) = find other l := by
  induction l with
  | nil => simp [insert_or_assign, find, h]
  | cons p rest ih =>
    obtain ⟨k, v⟩ := p
    unfold insert_or_assign
    split
    · rename_i hk
      subst hk
      simp [find, h]
    · split
      · simp [find, h]
      · simp [find, ih]

theorem find_insert_or_assign (key other : String) (val : Json) (l : List (String × Json)) :
    find other (insert_or_assign key val l) = if other = key then some val else find other l := by
  by_cases h : other = key
  · subst h
    simp [find_insert_or_assign_self]
  · simp [h, find_insert_or_assign_of_ne h]

theorem of_pairs_singleton (key : String) (a : Json) :
    Json.of_pairs [(key, a)] = .object [(key, a)] := rfl

theorem of_pairs_request (a b c : Json) :
    Json.of_pairs [("requestId", a), ("report", b), ("clear", c)] =
      .object [("clear", c), ("report", b), ("requestId", a)] := by
  simp +decide [Json.of_pairs, find, insert_or_assign]

theorem at_object_of_contains_false {members : List (String × Json)} {key : String}
    (h : (Json.object members).contains key = false) :
    (Json.object members).at_ key = .error (.out_of_range_403 key) := by
  simp only [Json.contains] at h
  cases hf : find key members with
  | none => simp [Json.at_, hf]
  | some v => simp [hf] at h

theorem with_members_object (extras : List (String × Json)) :
    ∀ members : List (String × Json), ∃ members2,
      v2.with_members extras (.object members) = .object members2 ∧
      ∀ key, (∀ p ∈ extras, p.1 ≠ key) → find key members2 = find key members := by
  induction extras with
  | nil =>
    intro members
    exact ⟨members, rfl, fun _ _ => rfl⟩
  | cons p rest ih =>
    intro members
    obtain ⟨members2, h_eq, h_find⟩ := ih (insert_or_assign p.1 p.2 members)
    refine ⟨members2, ?_, fun key h => ?_⟩
    · simpa [v2.with_members, Json.set] using h_eq
    · rw [h_find key (fun q hq => h q (List.mem_cons_of_mem _ hq))]
      exact find_insert_or_assign_of_ne (Ne.symm (h p (List.mem_cons_self _ _))) _ _

theorem and_then_eq_returned {α : Type} {o : Outcome α} {next : α → Outcome α} {M : α} :
    o.and_then next = .returned M ↔ ∃ k, o = .returned k ∧ next k = .returned M := by
  cases o <;> simp [Outcome.and_then]

theorem assign_eq_returned {α β : Type} {value : Except DecodeError β} {store : α → β → α}
    {k M : α} :
    assign value store k = .returned M ↔ ∃ v, value = .ok v ∧ store k v = M := by
  cases value <;> simp [assign]

theorem emplace_if_contains_eq_returned {α β : Type} {j : Json} {key : String}
    {decode : Json → Except DecodeError β} {store : α → Option β → α} {k M : α} :
    emplace_if_contains j key decode store k = .returned M ↔
      (j.contains key = true ∧ ∃ v, (j.at_ key >>= decode) = .ok v ∧ store k (some v) = M) ∨
      (j.contains key = false ∧ k = M) := by
  unfold emplace_if_contains
  cases hc : j.contains key
  · simp
  · cases hd : j.at_ key >>= decode <;> simp

theorem customer_information_request_from_json_congr {T : ValueTypes}
    {members members2 : List (String × Json)}
    (h : ∀ key ∈ v2.CustomerInformationRequest.schema_keys, find key members2 = find key members)
    (k : v2.CustomerInformationRequest T) :
    v2.CustomerInformationRequest.from_json (.object members2) k =
      v2.CustomerInformationRequest.from_json (.object members) k := by
  have h1 := h "requestId" (by decide)
  have h2 := h "report" (by decide)
  have h3 := h "clear" (by decide)
  have h4 := h "customerCertificate" (by decide)
  have h5 := h "idToken" (by decide)
  have h6 := h "customerIdentifier" (by decide)
  have h7 := h "customData" (by decide)
  simp only [v2.CustomerInformationRequest.from_json, emplace_if_contains, Json.at_,
    Json.contains, h1, h2, h3, h4, h5, h6, h7]

theorem set_monitoring_base_response_from_json_congr {T : ValueTypes}
    {members members2 : List (String × Json)}
    (h : ∀ key ∈ v2.SetMonitoringBaseResponse.schema_keys, find key members2 = find key members)
    (k : v2.SetMonitoringBaseResponse T) :
    v2.SetMonitoringBaseResponse.from_json (.object members2) k =
      v2.SetMonitoringBaseResponse.from_json (.object members) k := by
  have h1 := h "status" (by decide)
  have h2 := h "statusInfo" (by decide)
  have h3 := h "customData" (by decide)
  simp only [v2.SetMonitoringBaseResponse.from_json, emplace_if_contains, Json.at_,
    Json.contains, h1, h2, h3]

theorem string_codec_round_trips : string_codec.round_trips := by
  intro a
  rfl

theorem c_str_of_no_nul {s : String} (h : ∀ c ∈ s.toList, c ≠ Char.ofNat 0) : c_str s = s := by
  unfold c_str
  have h_all : s.toList.takeWhile (fun c => c ≠ Char.ofNat 0) = s.toList := by
    rw [List.takeWhile_eq_self_iff]
    intro c hc
    simpa using h c hc
  rw [h_all]
  cases s
  rfl

theorem append_between_cancel {a b s t : String} (h : a ++ s ++ b = a ++ t ++ b) : s = t := by
  have h_data := congrArg String.data h
  simp only [String.data_append, List.append_assoc] at h_data
  have h2 := List.append_cancel_left h_data
  have h3 := List.append_cancel_right h2
  exact String.ext h3

theorem no_nul_append {a b : String} (ha : ∀ c ∈ a.toList, c ≠ Char.ofNat 0)
    (hb : ∀ c ∈ b.toList, c ≠ Char.ofNat 0) : ∀ c ∈ (a ++ b).toList, c ≠ Char.ofNat 0 := by
  intro c hc
  have : c ∈ a.toList ∨ c ∈ b.toList := by
    simpa [String.toList, String.data_append] using hc
  rcases this with h | h
  · exact ha c h
  · exact hb c h

theorem string_view_of_string_to_string (s : String) :
    (string_view.of_string s).to_string = s := by
  cases s with
  | mk data =>
    simp [string_view.of_string, string_view.to_string, String.push, String.length]

theorem rfc3339_fields_scenario_accepted :
    rfc3339_fields "2024-01-05T10:15:30Z".toList = some (1704449730, 0, 0) := by
  decide

theorem rfc3339_fields_scenario_rejected :
    rfc3339_fields "2024-01-05 10:15:30".toList = none := by
  decide


theorem of_pairs_update_firmware (a b : Json) :
    Json.of_pairs [("location", a), ("retrieveDate", b)] =
      .object [("location", a), ("retrieveDate", b)] := by
  simp +decide [Json.of_pairs, find, insert_or_assign]

theorem find_isSome_iff_mem_keys (key : String) (members : List (String × Json)) :
    (find key members).isSome = true ↔ key ∈ members.map Prod.fst := by
  induction members with
  | nil => simp [find]
  | cons p rest ih =>
    obtain ⟨k, v⟩ := p
    by_cases h : key = k
    · simp [find, h]
    · simp [find, h, ih]

theorem members_of_required_keys {members : List (String × Json)}
    (h_map : strictly_increasing_keys members)
    (h_keys : ∀ key, (Json.object members).contains key = true ↔
      (key = "requestId" ∨ key = "report" ∨ key = "clear")) :
    ∃ v1 v2 v3, members = [("clear", v1), ("report", v2), ("requestId", v3)] := by
  have h_sorted : (members.map Prod.fst).Pairwise (fun a b : String => a.toList < b.toList) := by
    rw [List.pairwise_map]
    exact h_map
  have h_nodup : (members.map Prod.fst).Nodup :=
    h_sorted.imp (fun {a b} h h_eq => by
      subst h_eq
      exact lt_irrefl _ h)
  have h_mem : ∀ key, key ∈ members.map Prod.fst ↔
      key ∈ ["clear", "report", "requestId"] := by
    intro key
    rw [← find_isSome_iff_mem_keys]
    have := h_keys key
    simp only [Json.contains] at this
    rw [this]
    simp only [List.mem_cons, List.mem_singleton, List.not_mem_nil, or_false]
    tauto
  have h_perm : (members.map Prod.fst).Perm ["clear", "report", "requestId"] :=
    (List.perm_ext_iff_of_nodup h_nodup (by decide)).2 h_mem
  haveI : IsAntisymm String (fun a b : String => a.toList < b.toList) :=
    ⟨fun _ _ h1 h2 => absurd h2 (lt_asymm h1)⟩
  have h_target : List.Sorted (fun a b : String => a.toList < b.toList)
      ["clear", "report", "requestId"] := by
    refine List.Pairwise.cons ?_ (List.Pairwise.cons ?_ (List.Pairwise.cons ?_ List.Pairwise.nil))
    · intro a ha
      simp only [List.mem_cons, List.mem_singleton, List.not_mem_nil, or_false] at ha
      rcases ha with rfl | rfl <;> decide
    · intro a ha
      simp only [List.mem_singleton] at ha
      subst ha
      decide
    · intro a ha
      cases ha
  have h_eq : members.map Prod.fst = ["clear", "report", "requestId"] :=
    List.eq_of_perm_of_sorted h_perm h_sorted h_target
  rcases members with _ | ⟨⟨k1, v1⟩, _ | ⟨⟨k2, v2⟩, _ | ⟨⟨k3, v3⟩, _ | ⟨p4, rest⟩⟩⟩⟩ <;>
    simp only [List.map_nil, List.map_cons, List.cons.injEq, reduceCtorEq, and_false,
      and_true, false_and] at h_eq
  obtain ⟨rfl, rfl, rfl⟩ := h_eq
  exact ⟨v1, v2, v3, rfl⟩

theorem sample_required_members_increasing : strictly_increasing_keys sample_required_members := by
  unfold strictly_increasing_keys sample_required_members
  refine List.Pairwise.cons ?_ (List.Pairwise.cons ?_ (List.Pairwise.cons ?_ List.Pairwise.nil))
  · intro a ha
    simp only [List.mem_cons, List.mem_singleton, List.not_mem_nil, or_false] at ha
    rcases ha with rfl | rfl <;> decide
  · intro a ha
    simp only [List.mem_singleton] at ha
    subst ha
    decide
  · intro a ha
    cases ha

theorem sample_required_members_keys (key : String) :
    (Json.object sample_required_members).contains key = true ↔
      (key = "requestId" ∨ key = "report" ∨ key = "clear") := by
  simp only [Json.contains, sample_required_members, find]
  split_ifs <;> simp_all



namespace v2

open conversions

/-! ## Round trips -/

/-- C1: decoding the encoding of a CustomerInformation request into a
default-constructed target returns the request itself, whatever combination of
its optional fields is set, provided the codecs of the nested value types
round-trip (`requestId` being an `int32_t`). -/
theorem customer_information_request_round_trip (T : ValueTypes)
    (h_cert : T.certificateHashDataType.round_trips) (h_token : T.idToken.round_trips)
    (h_ident : T.ciString64.round_trips) (h_custom : T.customData.round_trips)
    (M : CustomerInformationRequest T) (h_id : is_int32 M.requestId) (j0 : Json) :
    CustomerInformationRequest.from_json (CustomerInformationRequest.to_json j0 M)
      (CustomerInformationRequest.default_constructed T) = .returned M := by
  obtain ⟨r, b, c, cc, it, ci, cd⟩ := M
  have hw := wrap_int32_of_is_int32 h_id
  simp only at hw
  cases cc <;> cases it <;> cases ci <;> cases cd <;>
    simp +decide [CustomerInformationRequest.from_json, CustomerInformationRequest.to_json,
      CustomerInformationRequest.default_constructed, Json.of_pairs, Json.set, Json.at_,
      Json.contains, find, insert_or_assign, assign, emplace_if_contains, Outcome.and_then,
      get_int32, get_bool, hw, bind, Except.bind, h_cert _, h_token _, h_ident _, h_custom _]

/-- Witness of C1: a request with two of the four optional fields set. -/
theorem customer_information_request_round_trip_witness :
    string_codec.round_trips ∧ is_int32 sample_customer_information_request.requestId ∧
    CustomerInformationRequest.from_json
      (CustomerInformationRequest.to_json .null sample_customer_information_request)
      (CustomerInformationRequest.default_constructed string_values) =
    .returned sample_customer_information_request :=
  ⟨string_codec_round_trips, by decide,
    customer_information_request_round_trip string_values string_codec_round_trips
      string_codec_round_trips string_codec_round_trips string_codec_round_trips
      sample_customer_information_request (by decide) .null⟩

/-- C2: decoding the encoding of a SetMonitoringBase request, of a
SetMonitoringBase response and of a CustomerInformation response into a
default-constructed target returns the message itself, for every enumerator
and every combination of set optional fields, provided the codecs of the
nested value types round-trip. -/
theorem enum_messages_round_trip (T : ValueTypes)
    (h_info : T.statusInfo.round_trips) (h_custom : T.customData.round_trips) :
    (∀ (M : SetMonitoringBaseRequest T) (j0 : Json),
      SetMonitoringBaseRequest.from_json (SetMonitoringBaseRequest.to_json j0 M)
        (SetMonitoringBaseRequest.default_constructed T) = .returned M) ∧
    (∀ (M : SetMonitoringBaseResponse T) (j0 : Json),
      SetMonitoringBaseResponse.from_json (SetMonitoringBaseResponse.to_json j0 M)
        (SetMonitoringBaseResponse.default_constructed T) = .returned M) ∧
    (∀ (M : CustomerInformationResponse T) (j0 : Json),
      CustomerInformationResponse.from_json (CustomerInformationResponse.to_json j0 M)
        (CustomerInformationResponse.default_constructed T) = .returned M) := by
  refine ⟨?_, ?_, ?_⟩
  · rintro ⟨e, cd⟩ j0
    cases e <;> cases cd <;>
      simp +decide [SetMonitoringBaseRequest.from_json, SetMonitoringBaseRequest.to_json,
        SetMonitoringBaseRequest.default_constructed, Json.of_pairs, Json.set, Json.at_,
        Json.contains, find, insert_or_assign, assign, emplace_if_contains, Outcome.and_then,
        get_string, bind, Except.bind, monitoring_base_enum_to_string,
        string_to_monitoring_base_enum, h_custom _]
  · rintro ⟨e, si, cd⟩ j0
    cases e <;> cases si <;> cases cd <;>
      simp +decide [SetMonitoringBaseResponse.from_json, SetMonitoringBaseResponse.to_json,
        SetMonitoringBaseResponse.default_constructed, Json.of_pairs, Json.set, Json.at_,
        Json.contains, find, insert_or_assign, assign, emplace_if_contains, Outcome.and_then,
        get_string, bind, Except.bind, generic_device_model_status_enum_to_string,
        string_to_generic_device_model_status_enum, h_info _, h_custom _]
  · rintro ⟨e, si, cd⟩ j0
    cases e <;> cases si <;> cases cd <;>
      simp +decide [CustomerInformationResponse.from_json, CustomerInformationResponse.to_json,
        CustomerInformationResponse.default_constructed, Json.of_pairs, Json.set, Json.at_,
        Json.contains, find, insert_or_assign, assign, emplace_if_contains, Outcome.and_then,
        get_string, bind, Except.bind, customer_information_status_enum_to_string,
        string_to_customer_information_status_enum, h_info _, h_custom _]

/-- Witness of C2: one message of each of the three types. -/
theorem enum_messages_round_trip_witness :
    string_codec.round_trips ∧
    SetMonitoringBaseRequest.from_json
      (SetMonitoringBaseRequest.to_json .null sample_set_monitoring_base_request)
      (SetMonitoringBaseRequest.default_constructed string_values) =
    .returned sample_set_monitoring_base_request ∧
    SetMonitoringBaseResponse.from_json
      (SetMonitoringBaseResponse.to_json .null sample_set_monitoring_base_response)
      (SetMonitoringBaseResponse.default_constructed string_values) =
    .returned sample_set_monitoring_base_response ∧
    CustomerInformationResponse.from_json
      (CustomerInformationResponse.to_json .null sample_customer_information_response)
      (CustomerInformationResponse.default_constructed string_values) =
    .returned sample_customer_information_response :=
  ⟨string_codec_round_trips,
    (enum_messages_round_trip string_values string_codec_round_trips
      string_codec_round_trips).1 sample_set_monitoring_base_request .null,
    (enum_messages_round_trip string_values string_codec_round_trips
      string_codec_round_trips).2.1 sample_set_monitoring_base_response .null,
    (enum_messages_round_trip string_values string_codec_round_trips
      string_codec_round_trips).2.2 sample_customer_information_response .null⟩

/-! ## Decoding of the required members -/

/-- C3: the wire object with exactly the members `requestId` (an `int32_t`
value `r`, held as a signed or, when it is not negative, as an unsigned JSON
integer), `report` and `clear` decodes into a default-constructed
CustomerInformation request with these three values and every optional field
unset. -/
theorem customer_information_request_required_only (T : ValueTypes) (r : Int) (b c : Bool)
    (h_r : is_int32 r) :
    CustomerInformationRequest.from_json
      (Json.of_pairs [("requestId", .number_integer r), ("report", .boolean b),
        ("clear", .boolean c)])
      (CustomerInformationRequest.default_constructed T) =
      .returned { requestId := r, report := b, clear := c, customerCertificate := none,
                  idToken := none, customerIdentifier := none, customData := none } ∧
    (0 ≤ r →
      CustomerInformationRequest.from_json
        (Json.of_pairs [("requestId", .number_unsigned r.toNat), ("report", .boolean b),
          ("clear", .boolean c)])
        (CustomerInformationRequest.default_constructed T) =
        .returned { requestId := r, report := b, clear := c, customerCertificate := none,
                    idToken := none, customerIdentifier := none, customData := none }) := by
  have hw := wrap_int32_of_is_int32 h_r
  refine ⟨?_, fun h0 => ?_⟩
  · simp +decide [CustomerInformationRequest.from_json,
      CustomerInformationRequest.default_constructed, Json.of_pairs, Json.at_,
      Json.contains, find, insert_or_assign, assign, emplace_if_contains, Outcome.and_then,
      get_int32, get_bool, hw, bind, Except.bind]
  · have hn : ((r.toNat : Nat) : Int) = r := Int.toNat_of_nonneg h0
    simp +decide [CustomerInformationRequest.from_json,
      CustomerInformationRequest.default_constructed, Json.of_pairs, Json.at_,
      Json.contains, find, insert_or_assign, assign, emplace_if_contains, Outcome.and_then,
      get_int32, get_bool, hw, hn, bind, Except.bind]

/-- Witness of C3: the wire object of the first concrete scenario, `requestId`
42, `report` true, `clear` false. -/
theorem customer_information_request_required_only_witness :
    is_int32 42 ∧
    CustomerInformationRequest.from_json
      (Json.of_pairs [("requestId", .number_unsigned 42), ("report", .boolean true),
        ("clear", .boolean false)])
      (CustomerInformationRequest.default_constructed string_values) =
      .returned { requestId := 42, report := true, clear := false, customerCertificate := none,
                  idToken := none, customerIdentifier := none, customData := none } :=
  ⟨by decide,
    (customer_information_request_required_only string_values 42 true false (by decide)).2
      (by decide)⟩

/-- C4, as the spec states it, fails: this wire object lacks the required key
`clear`, and the failure of `from_json` is the type error of the ill-typed
`requestId` read before it, not a missing-field error. -/
theorem required_field_omission_counterexample :
    (Json.of_pairs [("requestId", .string "x"), ("report", .boolean true)]).contains "clear"
      = false ∧
    (CustomerInformationRequest.from_json
      (Json.of_pairs [("requestId", .string "x"), ("report", .boolean true)])
      (CustomerInformationRequest.default_constructed string_values)).failure
      = some (.type_error_302 "number" "string") :=
  ⟨rfl, rfl⟩

/-- C4, amended: a wire object without the single required key of a
CustomerInformation response, a SetMonitoringBase request or a
SetMonitoringBase response fails with the missing-field error naming that key.
A wire object without a required key of a CustomerInformation request always
fails, and the failure is the missing-field error naming the first missing key
in the order `requestId`, `report`, `clear` when the required members read
before it convert to their field types; otherwise the failure is the type
error of the first of `requestId`, `report` that is present and does not
convert. -/
theorem required_field_omission (T : ValueTypes) (members : List (String × Json)) :
    (∀ k : CustomerInformationRequest T,
      ((Json.object members).contains "requestId" = false →
        CustomerInformationRequest.from_json (.object members) k =
          .threw (.out_of_range_403 "requestId") k) ∧
      (∀ r, (Json.object members).at_ "requestId" >>= get_int32 = .ok r →
        (Json.object members).contains "report" = false →
        CustomerInformationRequest.from_json (.object members) k =
          .threw (.out_of_range_403 "report") { k with requestId := r }) ∧
      (∀ r b, (Json.object members).at_ "requestId" >>= get_int32 = .ok r →
        (Json.object members).at_ "report" >>= get_bool = .ok b →
        (Json.object members).contains "clear" = false →
        CustomerInformationRequest.from_json (.object members) k =
          .threw (.out_of_range_403 "clear") { k with requestId := r, report := b }) ∧
      (((Json.object members).contains "requestId" = false ∨
          (Json.object members).contains "report" = false ∨
          (Json.object members).contains "clear" = false) →
        (CustomerInformationRequest.from_json (.object members) k).result = none) ∧
      (∀ v e, find "requestId" members = some v → get_int32 v = .error e →
        e = .type_error_302 "number" v.type_name ∧
        CustomerInformationRequest.from_json (.object members) k = .threw e k) ∧
      (∀ r v e, (Json.object members).at_ "requestId" >>= get_int32 = .ok r →
        find "report" members = some v → get_bool v = .error e →
        e = .type_error_302 "boolean" v.type_name ∧
        CustomerInformationRequest.from_json (.object members) k =
          .threw e { k with requestId := r })) ∧
    (∀ k : CustomerInformationResponse T,
      (Json.object members).contains "status" = false →
        CustomerInformationResponse.from_json (.object members) k =
          .threw (.out_of_range_403 "status") k) ∧
    (∀ k : SetMonitoringBaseRequest T,
      (Json.object members).contains "monitoringBase" = false →
        SetMonitoringBaseRequest.from_json (.object members) k =
          .threw (.out_of_range_403 "monitoringBase") k) ∧
    (∀ k : SetMonitoringBaseResponse T,
      (Json.object members).contains "status" = false →
        SetMonitoringBaseResponse.from_json (.object members) k =
          .threw (.out_of_range_403 "status") k) := by
  refine ⟨fun k => ⟨?_, ?_, ?_, ?_, ?_, ?_⟩, ?_, ?_, ?_⟩
  · intro h
    simp [CustomerInformationRequest.from_json, at_object_of_contains_false h, assign,
      Outcome.and_then, bind, Except.bind]
  · intro r hr h
    simp only [CustomerInformationRequest.from_json, hr, assign, Outcome.and_then]
    simp [at_object_of_contains_false h, bind, Except.bind]
  · intro r b hr hb h
    simp only [CustomerInformationRequest.from_json, hr, hb, assign, Outcome.and_then]
    simp [at_object_of_contains_false h, bind, Except.bind]
  · intro h
    unfold CustomerInformationRequest.from_json
    cases h1 : (Json.object members).at_ "requestId" >>= get_int32 with
    | error e => simp [assign, Outcome.and_then, Outcome.result]
    | ok r =>
      cases h2 : (Json.object members).at_ "report" >>= get_bool with
      | error e => simp [assign, Outcome.and_then, Outcome.result]
      | ok b =>
        cases h3 : (Json.object members).at_ "clear" >>= get_bool with
        | error e => simp [assign, Outcome.and_then, Outcome.result]
        | ok c =>
          exfalso
          rcases h with h | h | h
          · simp [at_object_of_contains_false h, bind, Except.bind] at h1
          · simp [at_object_of_contains_false h, bind, Except.bind] at h2
          · simp [at_object_of_contains_false h, bind, Except.bind] at h3
  · intro v e hf he
    have h_read : (Json.object members).at_ "requestId" >>= get_int32 = .error e := by
      simp [Json.at_, hf, he, bind, Except.bind]
    refine ⟨?_, ?_⟩
    · cases v <;> simp_all [get_int32, Json.type_name]
    · simp only [CustomerInformationRequest.from_json, h_read, assign, Outcome.and_then]
  · intro r v e hr hf he
    have h_read : (Json.object members).at_ "report" >>= get_bool = .error e := by
      simp [Json.at_, hf, he, bind, Except.bind]
    refine ⟨?_, ?_⟩
    · cases v <;> simp_all [get_bool, Json.type_name]
    · simp only [CustomerInformationRequest.from_json, hr, h_read, assign, Outcome.and_then]
  · intro k h
    simp [CustomerInformationResponse.from_json, at_object_of_contains_false h, assign,
      Outcome.and_then, bind, Except.bind]
  · intro k h
    simp [SetMonitoringBaseRequest.from_json, at_object_of_contains_false h, assign,
      Outcome.and_then, bind, Except.bind]
  · intro k h
    simp [SetMonitoringBaseResponse.from_json, at_object_of_contains_false h, assign,
      Outcome.and_then, bind, Except.bind]

/-- Witness of C4: the empty object lacks every required key, an object with
only `requestId` lacks `report`, an object with `requestId` and `report` lacks
`clear`, and an object whose `requestId` is a string and which lacks `report`
still fails, with the type error of `requestId`; an object whose `report` is a
string and which lacks `clear` fails with the type error of `report`. -/
theorem required_field_omission_witness :
    (Json.object []).contains "requestId" = false ∧
    CustomerInformationRequest.from_json (.object [])
        (CustomerInformationRequest.default_constructed string_values) =
      .threw (.out_of_range_403 "requestId")
        (CustomerInformationRequest.default_constructed string_values) ∧
    CustomerInformationRequest.from_json (.object [("requestId", .number_unsigned 7)])
        (CustomerInformationRequest.default_constructed string_values) =
      .threw (.out_of_range_403 "report")
        { CustomerInformationRequest.default_constructed string_values with requestId := 7 } ∧
    CustomerInformationRequest.from_json
        (.object [("report", .boolean true), ("requestId", .number_unsigned 7)])
        (CustomerInformationRequest.default_constructed string_values) =
      .threw (.out_of_range_403 "clear")
        { CustomerInformationRequest.default_constructed string_values with
          requestId := 7, report := true } ∧
    (CustomerInformationRequest.from_json (.object [("requestId", .string "x")])
        (CustomerInformationRequest.default_constructed string_values)).result = none ∧
    CustomerInformationRequest.from_json (.object [("requestId", .string "x")])
        (CustomerInformationRequest.default_constructed string_values) =
      .threw (.type_error_302 "number" "string")
        (CustomerInformationRequest.default_constructed string_values) ∧
    CustomerInformationRequest.from_json
        (.object [("report", .string "y"), ("requestId", .number_unsigned 7)])
        (CustomerInformationRequest.default_constructed string_values) =
      .threw (.type_error_302 "boolean" "string")
        { CustomerInformationRequest.default_constructed string_values with requestId := 7 } ∧
    CustomerInformationResponse.from_json (.object [])
        (CustomerInformationResponse.default_constructed string_values) =
      .threw (.out_of_range_403 "status")
        (CustomerInformationResponse.default_constructed string_values) ∧
    SetMonitoringBaseRequest.from_json (.object [])
        (SetMonitoringBaseRequest.default_constructed string_values) =
      .threw (.out_of_range_403 "monitoringBase")
        (SetMonitoringBaseRequest.default_constructed string_values) ∧
    SetMonitoringBaseResponse.from_json (.object [])
        (SetMonitoringBaseResponse.default_constructed string_values) =
      .threw (.out_of_range_403 "status")
        (SetMonitoringBaseResponse.default_constructed string_values) :=
  ⟨rfl,
    ((required_field_omission string_values []).1 _).1 rfl,
    ((required_field_omission string_values [("requestId", .number_unsigned 7)]).1 _).2.1
      7 rfl rfl,
    ((required_field_omission string_values
      [("report", .boolean true), ("requestId", .number_unsigned 7)]).1 _).2.2.1
      7 true rfl rfl rfl,
    ((required_field_omission string_values [("requestId", .string "x")]).1 _).2.2.2.1
      (Or.inr (Or.inl rfl)),
    (((required_field_omission string_values [("requestId", .string "x")]).1 _).2.2.2.2.1
      (.string "x") (.type_error_302 "number" "string") rfl rfl).2,
    (((required_field_omission string_values
      [("report", .string "y"), ("requestId", .number_unsigned 7)]).1 _).2.2.2.2.2
      7 (.string "y") (.type_error_302 "boolean" "string") rfl rfl rfl).2,
    (required_field_omission string_values []).2.1 _ rfl,
    (required_field_omission string_values []).2.2.1 _ rfl,
    (required_field_omission string_values []).2.2.2 _ rfl⟩

/-! ## Enumerators on the wire -/

/-- C5: decoding the wire object whose only member is `status` with the
string `Accepted` returns with `status` set to the enumerator `Accepted`,
whatever status the target held, and with the optional fields as the target
held them; into a default-constructed SetMonitoringBase response, and into a
target that held `Rejected` with both optional fields unset, the result is
`Accepted` with `statusInfo` and `customData` unset. -/
theorem set_monitoring_base_response_accepted (T : ValueTypes)
    (k : SetMonitoringBaseResponse T) :
    SetMonitoringBaseResponse.from_json (Json.of_pairs [("status", .string "Accepted")]) k =
      .returned { k with status := GenericDeviceModelStatusEnum.Accepted } ∧
    SetMonitoringBaseResponse.from_json (Json.of_pairs [("status", .string "Accepted")])
      (SetMonitoringBaseResponse.default_constructed T) =
      .returned { status := GenericDeviceModelStatusEnum.Accepted, statusInfo := none,
                  customData := none } ∧
    SetMonitoringBaseResponse.from_json (T := T)
      (Json.of_pairs [("status", .string "Accepted")])
      { status := GenericDeviceModelStatusEnum.Rejected, statusInfo := none,
        customData := none } =
      .returned { status := GenericDeviceModelStatusEnum.Accepted, statusInfo := none,
                  customData := none } :=
  ⟨rfl, rfl, rfl⟩

/-- C6: for a string that is the canonical string of no enumerator of
`GenericDeviceModelStatusEnum`, decoding the wire object whose only member is
`status` with that string throws the `StringToEnumException` of that string;
no status is assigned to the target. -/
theorem unknown_enumerator_not_defaulted (T : ValueTypes) (s : String)
    (h : ∀ e, generic_device_model_status_enum_to_string e ≠ s)
    (k : SetMonitoringBaseResponse T) :
    SetMonitoringBaseResponse.from_json (Json.of_pairs [("status", .string s)]) k =
      .threw (.StringToEnumException s "GenericDeviceModelStatusEnum") k := by
  have h1 := h .Accepted
  have h2 := h .Rejected
  have h3 := h .NotSupported
  have h4 := h .EmptyResultSet
  simp only [generic_device_model_status_enum_to_string] at h1 h2 h3 h4
  simp [SetMonitoringBaseResponse.from_json, Json.of_pairs, Json.at_, find, insert_or_assign,
    assign, Outcome.and_then, get_string, bind, Except.bind,
    string_to_generic_device_model_status_enum, Ne.symm h1, Ne.symm h2, Ne.symm h3, Ne.symm h4]

/-- Witness of C6: the string `Bogus` of the second concrete scenario. -/
theorem unknown_enumerator_not_defaulted_witness :
    (∀ e, generic_device_model_status_enum_to_string e ≠ "Bogus") ∧
    SetMonitoringBaseResponse.from_json (Json.of_pairs [("status", .string "Bogus")])
        (SetMonitoringBaseResponse.default_constructed string_values) =
      .threw (.StringToEnumException "Bogus" "GenericDeviceModelStatusEnum")
        (SetMonitoringBaseResponse.default_constructed string_values) :=
  ⟨fun e => by cases e <;> decide,
    unknown_enumerator_not_defaulted string_values "Bogus" (fun e => by cases e <;> decide)
      (SetMonitoringBaseResponse.default_constructed string_values)⟩

/-! ## Shape of the encoded messages -/

/-- C7: the encoding of a CustomerInformation request is an object whose keys
are exactly `requestId`, `report`, `clear` and the key of each optional field
that is set; the key of an unset optional field is absent, and the three
required keys carry the values of the request. -/
theorem customer_information_request_key_set (T : ValueTypes)
    (M : CustomerInformationRequest T) (j0 : Json) :
    (∃ members, CustomerInformationRequest.to_json j0 M = .object members) ∧
    (∀ key : String, (CustomerInformationRequest.to_json j0 M).contains key = true ↔
      (key = "requestId" ∨ key = "report" ∨ key = "clear" ∨
        (key = "customerCertificate" ∧ M.customerCertificate.isSome = true) ∨
        (key = "idToken" ∧ M.idToken.isSome = true) ∨
        (key = "customerIdentifier" ∧ M.customerIdentifier.isSome = true) ∨
        (key = "customData" ∧ M.customData.isSome = true))) ∧
    (CustomerInformationRequest.to_json j0 M).at_ "requestId" =
      .ok (.number_integer M.requestId) ∧
    (CustomerInformationRequest.to_json j0 M).at_ "report" = .ok (.boolean M.report) ∧
    (CustomerInformationRequest.to_json j0 M).at_ "clear" = .ok (.boolean M.clear) := by
  obtain ⟨r, b, c, cc, it, ci, cd⟩ := M
  simp only [CustomerInformationRequest.to_json, of_pairs_request]
  cases cc <;> cases it <;> cases ci <;> cases cd <;>
    (simp only [Json.set, Json.contains, Json.at_, find_insert_or_assign, find]
     refine ⟨⟨_, rfl⟩, fun key => ?_, by simp, by simp, by simp⟩
     simp only [Option.isSome_none, Option.isSome_some, Bool.false_eq_true, and_false, and_true,
       or_false]
     split_ifs <;> simp_all)

/-- C8: the encoding of a SetMonitoringBase response is an object that holds
under `status` the JSON string of the canonical string of the status, holds
`statusInfo` exactly when the field is set, holds `customData` exactly when
the field is set, and holds no other key. -/
theorem set_monitoring_base_response_shape (T : ValueTypes)
    (M : SetMonitoringBaseResponse T) (j0 : Json) :
    (∃ members, SetMonitoringBaseResponse.to_json j0 M = .object members) ∧
    (SetMonitoringBaseResponse.to_json j0 M).at_ "status" =
      .ok (.string (generic_device_model_status_enum_to_string M.status)) ∧
    ((SetMonitoringBaseResponse.to_json j0 M).contains "statusInfo" = true ↔
      M.statusInfo.isSome = true) ∧
    ((SetMonitoringBaseResponse.to_json j0 M).contains "customData" = true ↔
      M.customData.isSome = true) ∧
    (∀ key : String, (SetMonitoringBaseResponse.to_json j0 M).contains key = true →
      key = "status" ∨ key = "statusInfo" ∨ key = "customData") := by
  obtain ⟨e, si, cd⟩ := M
  simp only [SetMonitoringBaseResponse.to_json, of_pairs_singleton]
  cases si <;> cases cd <;>
    (simp only [Json.set, Json.contains, Json.at_, find_insert_or_assign, find]
     refine ⟨⟨_, rfl⟩, by simp, by simp, by simp, fun key => ?_⟩
     split_ifs <;> simp_all)

/-! ## Optional members on read -/

/-- C9: when decoding a wire value into a default-constructed
CustomerInformation request returns, each optional field of the result is set
exactly when the wire object contains its key, and a set field holds the value
its own decoder produces from the member under that key. -/
theorem optional_presence_mirrors_wire (T : ValueTypes) (j : Json)
    (M : CustomerInformationRequest T)
    (h : CustomerInformationRequest.from_json j
      (CustomerInformationRequest.default_constructed T) = .returned M) :
    (M.customerCertificate.isSome = j.contains "customerCertificate" ∧
      ∀ v, M.customerCertificate = some v →
        (j.at_ "customerCertificate" >>= T.certificateHashDataType.from_json) = .ok v) ∧
    (M.idToken.isSome = j.contains "idToken" ∧
      ∀ v, M.idToken = some v → (j.at_ "idToken" >>= T.idToken.from_json) = .ok v) ∧
    (M.customerIdentifier.isSome = j.contains "customerIdentifier" ∧
      ∀ v, M.customerIdentifier = some v →
        (j.at_ "customerIdentifier" >>= T.ciString64.from_json) = .ok v) ∧
    (M.customData.isSome = j.contains "customData" ∧
      ∀ v, M.customData = some v → (j.at_ "customData" >>= T.customData.from_json) = .ok v) := by
  unfold CustomerInformationRequest.from_json at h
  simp only [and_then_eq_returned, assign_eq_returned, emplace_if_contains_eq_returned] at h
  obtain ⟨k1, ⟨r, -, rfl⟩, k2, ⟨b, -, rfl⟩, k3, ⟨c, -, rfl⟩, k4, h4, k5, h5, k6, h6, h7⟩ := h
  rcases h4 with ⟨c4, v4, e4, rfl⟩ | ⟨c4, rfl⟩ <;>
  rcases h5 with ⟨c5, v5, e5, rfl⟩ | ⟨c5, rfl⟩ <;>
  rcases h6 with ⟨c6, v6, e6, rfl⟩ | ⟨c6, rfl⟩ <;>
  rcases h7 with ⟨c7, v7, e7, rfl⟩ | ⟨c7, rfl⟩ <;>
  simp [CustomerInformationRequest.default_constructed, c4, c5, c6, c7, *]

/-- Witness of C9: a wire object that holds `customData` and none of the other
optional members. -/
theorem optional_presence_mirrors_wire_witness :
    CustomerInformationRequest.from_json sample_request_wire
      (CustomerInformationRequest.default_constructed string_values) =
      .returned { requestId := 42, report := true, clear := false, customerCertificate := none,
                  idToken := none, customerIdentifier := none,
                  customData := some ("vendor" : String) } ∧
    (none : Option String).isSome = sample_request_wire.contains "idToken" ∧
    (some ("vendor" : String)).isSome = sample_request_wire.contains "customData" ∧
    (sample_request_wire.at_ "customData" >>= string_values.customData.from_json) =
      .ok ("vendor" : String) :=
  ⟨rfl,
    (optional_presence_mirrors_wire string_values sample_request_wire _ rfl).2.1.1,
    (optional_presence_mirrors_wire string_values sample_request_wire _ rfl).2.2.2.1,
    (optional_presence_mirrors_wire string_values sample_request_wire _ rfl).2.2.2.2
      ("vendor" : String) rfl⟩

/-- C10: assigning further members whose keys are not in the schema to a wire
object does not change what `from_json` of a CustomerInformation request, and
of a SetMonitoringBase response, does with it: the call throws the same
exception or returns the same message. -/
theorem unrecognised_fields_ignored (T : ValueTypes) (members extras : List (String × Json)) :
    ((∀ p ∈ extras, p.1 ∉ CustomerInformationRequest.schema_keys) →
      ∀ k : CustomerInformationRequest T,
        CustomerInformationRequest.from_json (with_members extras (.object members)) k =
          CustomerInformationRequest.from_json (.object members) k) ∧
    ((∀ p ∈ extras, p.1 ∉ SetMonitoringBaseResponse.schema_keys) →
      ∀ k : SetMonitoringBaseResponse T,
        SetMonitoringBaseResponse.from_json (with_members extras (.object members)) k =
          SetMonitoringBaseResponse.from_json (.object members) k) := by
  obtain ⟨members2, h_eq, h_find⟩ := with_members_object extras members
  rw [h_eq]
  constructor
  · intro h k
    apply customer_information_request_from_json_congr
    intro key h_key
    apply h_find
    intro p hp h_p
    exact h p hp (h_p ▸ h_key)
  · intro h k
    apply set_monitoring_base_response_from_json_congr
    intro key h_key
    apply h_find
    intro p hp h_p
    exact h p hp (h_p ▸ h_key)

/-- Witness of C10: two members outside both schemas, one of them an object
that itself holds a schema key, the other a schema key in another letter
case. -/
theorem unrecognised_fields_ignored_witness :
    (∀ p ∈ sample_extras, p.1 ∉ CustomerInformationRequest.schema_keys) ∧
    (∀ p ∈ sample_extras, p.1 ∉ SetMonitoringBaseResponse.schema_keys) ∧
    CustomerInformationRequest.from_json (with_members sample_extras (.object sample_members))
        (CustomerInformationRequest.default_constructed string_values) =
      CustomerInformationRequest.from_json (.object sample_members)
        (CustomerInformationRequest.default_constructed string_values) ∧
    SetMonitoringBaseResponse.from_json (with_members sample_extras (.object sample_members))
        (SetMonitoringBaseResponse.default_constructed string_values) =
      SetMonitoringBaseResponse.from_json (.object sample_members)
        (SetMonitoringBaseResponse.default_constructed string_values) :=
  ⟨by decide, by decide,
    (unrecognised_fields_ignored string_values sample_members sample_extras).1 (by decide) _,
    (unrecognised_fields_ignored string_values sample_members sample_extras).2 (by decide) _⟩

/-! ## Failures -/

/-- C11: `from_json` of a CustomerInformation request examines the fields in
the order `requestId`, `report`, `clear`, `customerCertificate`, `idToken`,
`customerIdentifier`, `customData`, and the failure it ends with is the first
violation in this order, whatever the target is; a wire object that lacks both
`requestId` and `clear` fails naming `requestId`, and a missing required key
is reported in preference to a malformed optional member. -/
theorem fail_fast_on_first_violation (T : ValueTypes) (j : Json)
    (k : CustomerInformationRequest T) :
    (CustomerInformationRequest.from_json j k).failure =
      first_violation (CustomerInformationRequest.field_violations T j) ∧
    (CustomerInformationRequest.from_json (Json.of_pairs [("report", .boolean true)])
      (CustomerInformationRequest.default_constructed string_values)).failure =
      some (.out_of_range_403 "requestId") ∧
    (CustomerInformationRequest.from_json
      (Json.of_pairs [("requestId", .number_unsigned 1), ("report", .boolean true),
        ("customData", .number_unsigned 5)])
      (CustomerInformationRequest.default_constructed string_values)).failure =
      some (.out_of_range_403 "clear") := by
  refine ⟨?_, rfl, rfl⟩
  simp only [CustomerInformationRequest.from_json, CustomerInformationRequest.field_violations,
    assign, emplace_if_contains, required_violation, optional_violation]
  cases j.at_ "requestId" >>= get_int32 <;>
    simp only [Outcome.and_then, Outcome.failure, first_violation]
  cases j.at_ "report" >>= get_bool <;>
    simp only [Outcome.and_then, Outcome.failure, first_violation]
  cases j.at_ "clear" >>= get_bool <;>
    simp only [Outcome.and_then, Outcome.failure, first_violation]
  cases j.contains "customerCertificate" <;>
    [skip; cases j.at_ "customerCertificate" >>= T.certificateHashDataType.from_json] <;>
    simp only [Outcome.and_then, Outcome.failure, first_violation, if_true, if_false,
      Bool.false_eq_true] <;>
  (cases j.contains "idToken" <;>
    [skip; cases j.at_ "idToken" >>= T.idToken.from_json] <;>
    simp only [Outcome.and_then, Outcome.failure, first_violation, if_true, if_false,
      Bool.false_eq_true] <;>
  (cases j.contains "customerIdentifier" <;>
    [skip; cases j.at_ "customerIdentifier" >>= T.ciString64.from_json] <;>
    simp only [Outcome.and_then, Outcome.failure, first_violation, if_true, if_false,
      Bool.false_eq_true] <;>
  (cases j.contains "customData" <;>
    [skip; cases j.at_ "customData" >>= T.customData.from_json] <;>
    simp only [Outcome.and_then, Outcome.failure, first_violation, if_true, if_false,
      Bool.false_eq_true])))

/-- C12, as the spec states it, fails: on the wire object with the single
member `requestId` the call throws for the absent `report`, and the target,
default-constructed before the call, then holds the `requestId` of the wire
object. -/
theorem no_partial_construction_counterexample :
    CustomerInformationRequest.from_json (Json.of_pairs [("requestId", .number_unsigned 42)])
      (CustomerInformationRequest.default_constructed string_values) =
      .threw (.out_of_range_403 "report")
        { CustomerInformationRequest.default_constructed string_values with requestId := 42 } ∧
    ({ CustomerInformationRequest.default_constructed string_values with requestId := 42 } :
      CustomerInformationRequest string_values).requestId ≠
      (CustomerInformationRequest.default_constructed string_values).requestId :=
  ⟨rfl, by decide⟩

/-- C12, amended: when `from_json` of a CustomerInformation request fails on
the first member it reads, `requestId`, the target is left exactly as it was
before the call; when it fails later, the target holds the required members
that were read and converted before the failure: `requestId`, then `report`,
then `clear`. -/
theorem partial_assignment_on_failure (T : ValueTypes) (j : Json)
    (k : CustomerInformationRequest T) :
    (∀ e, required_violation j "requestId" get_int32 = some e →
      CustomerInformationRequest.from_json j k = .threw e k) ∧
    (∀ e k2, CustomerInformationRequest.from_json j k = .threw e k2 →
      (∀ r, (j.at_ "requestId" >>= get_int32) = .ok r → k2.requestId = r) ∧
      (∀ r b, (j.at_ "requestId" >>= get_int32) = .ok r →
        (j.at_ "report" >>= get_bool) = .ok b → k2.report = b) ∧
      (∀ r b c, (j.at_ "requestId" >>= get_int32) = .ok r →
        (j.at_ "report" >>= get_bool) = .ok b →
        (j.at_ "clear" >>= get_bool) = .ok c → k2.clear = c)) := by
  constructor
  · intro e h
    simp only [required_violation] at h
    simp only [CustomerInformationRequest.from_json, assign]
    cases h1 : j.at_ "requestId" >>= get_int32 with
    | ok r => simp [h1] at h
    | error e1 =>
      simp only [h1, Option.some.injEq] at h
      simp [Outcome.and_then, h]
  · intro e k2 h
    simp only [CustomerInformationRequest.from_json, assign, emplace_if_contains] at h
    cases h1 : j.at_ "requestId" >>= get_int32 with
    | error e1 => simp
    | ok r =>
      cases h2 : j.at_ "report" >>= get_bool with
      | error e2 =>
        simp only [h1, h2, Outcome.and_then, Outcome.threw.injEq] at h
        obtain ⟨-, rfl⟩ := h
        simp
      | ok b =>
        cases h3 : j.at_ "clear" >>= get_bool with
        | error e3 =>
          simp only [h1, h2, h3, Outcome.and_then, Outcome.threw.injEq] at h
          obtain ⟨-, rfl⟩ := h
          simp
        | ok c =>
          simp only [h1, h2, h3, Outcome.and_then] at h
          simp only [Except.ok.injEq, forall_eq']
          revert h
          cases j.contains "customerCertificate" <;>
            [skip; cases j.at_ "customerCertificate" >>= T.certificateHashDataType.from_json] <;>
          simp only [Outcome.and_then, if_true, if_false, Bool.false_eq_true,
            Outcome.threw.injEq, reduceCtorEq, false_imp_iff, and_imp] <;>
          first
          | (intro _ h; subst h; simp)
          | (cases j.contains "idToken" <;>
              [skip; cases j.at_ "idToken" >>= T.idToken.from_json] <;>
            simp only [Outcome.and_then, if_true, if_false, Bool.false_eq_true,
              Outcome.threw.injEq, reduceCtorEq, false_imp_iff, and_imp] <;>
            first
            | (intro _ h; subst h; simp)
            | (cases j.contains "customerIdentifier" <;>
                [skip; cases j.at_ "customerIdentifier" >>= T.ciString64.from_json] <;>
              simp only [Outcome.and_then, if_true, if_false, Bool.false_eq_true,
                Outcome.threw.injEq, reduceCtorEq, false_imp_iff, and_imp] <;>
              first
              | (intro _ h; subst h; simp)
              | (cases j.contains "customData" <;>
                  [skip; cases j.at_ "customData" >>= T.customData.from_json] <;>
                (simp only [Outcome.and_then, if_true, if_false, Bool.false_eq_true,
                  Outcome.threw.injEq, reduceCtorEq, false_imp_iff, and_imp];
                 try (intro _ h; subst h; simp)))))

/-- Witness of C12: the empty object fails on `requestId` and leaves the
target as it was; the object with `requestId` and `report` fails on `clear`
with both members assigned. -/
theorem partial_assignment_on_failure_witness :
    required_violation (.object []) "requestId" get_int32 =
      some (.out_of_range_403 "requestId") ∧
    CustomerInformationRequest.from_json (.object [])
      (CustomerInformationRequest.default_constructed string_values) =
      .threw (.out_of_range_403 "requestId")
        (CustomerInformationRequest.default_constructed string_values) ∧
    CustomerInformationRequest.from_json
      (.object [("report", .boolean true), ("requestId", .number_unsigned 42)])
      (CustomerInformationRequest.default_constructed string_values) =
      .threw (.out_of_range_403 "clear")
        { CustomerInformationRequest.default_constructed string_values with
          requestId := 42, report := true } ∧
    ({ CustomerInformationRequest.default_constructed string_values with
        requestId := 42, report := true } : CustomerInformationRequest string_values).report
      = true :=
  ⟨rfl,
    (partial_assignment_on_failure string_values (.object [])
      (CustomerInformationRequest.default_constructed string_values)).1 _ rfl,
    rfl,
    ((partial_assignment_on_failure string_values
      (.object [("report", .boolean true), ("requestId", .number_unsigned 42)])
      (CustomerInformationRequest.default_constructed string_values)).2 _ _ rfl).2.1
      42 true rfl rfl⟩

/-- C13, as the spec states it, fails for `customData`: this wire object holds
a valid `status` and a `customData` its decoder rejects, but `from_json` of a
SetMonitoringBase response ends with the failure of `statusInfo`, which is
read first, not with the failure of the `customData` decoder. -/
theorem nested_failures_propagate_counterexample :
    sample_two_nested_failures.contains "customData" = true ∧
    (sample_two_nested_failures.at_ "customData" >>= string_values.customData.from_json) =
      .error (.type_error_302 "string" "null") ∧
    (SetMonitoringBaseResponse.from_json sample_two_nested_failures
      (SetMonitoringBaseResponse.default_constructed string_values)).failure =
      some (.type_error_302 "string" "number") :=
  ⟨rfl, rfl, rfl⟩

/-- C13, amended: on a wire object whose `status` is valid, a `statusInfo` the
decoder of the field rejects makes `from_json` of a SetMonitoringBase response
throw that failure, and so does a rejected `customData` when `statusInfo` is
absent or accepted by its decoder; with a rejected `statusInfo` or `customData`
the call never returns a message. -/
theorem nested_failures_propagate (T : ValueTypes) (j : Json)
    (k : SetMonitoringBaseResponse T) (status : GenericDeviceModelStatusEnum)
    (h_status : (j.at_ "status" >>= get_string >>=
      string_to_generic_device_model_status_enum) = .ok status) :
    (∀ e, j.contains "statusInfo" = true →
      (j.at_ "statusInfo" >>= T.statusInfo.from_json) = .error e →
      SetMonitoringBaseResponse.from_json j k =
        .threw e { k with status := status, statusInfo := none }) ∧
    (∀ e, j.contains "customData" = true →
      (j.at_ "customData" >>= T.customData.from_json) = .error e →
      optional_violation j "statusInfo" T.statusInfo.from_json = none →
      (SetMonitoringBaseResponse.from_json j k).failure = some e) ∧
    (∀ e, j.contains "customData" = true →
      (j.at_ "customData" >>= T.customData.from_json) = .error e →
      (SetMonitoringBaseResponse.from_json j k).result = none) := by
  refine ⟨?_, ?_, ?_⟩
  · intro e hc he
    simp [SetMonitoringBaseResponse.from_json, h_status, assign, emplace_if_contains, hc, he,
      Outcome.and_then]
  · intro e hc he hv
    simp only [SetMonitoringBaseResponse.from_json, h_status, assign, emplace_if_contains, hc,
      he, Outcome.and_then, if_true]
    simp only [optional_violation, required_violation] at hv
    cases h1 : j.contains "statusInfo"
    · simp [Outcome.failure]
    · cases h2 : j.at_ "statusInfo" >>= T.statusInfo.from_json with
      | error e2 => simp [h1, h2] at hv
      | ok v => simp [Outcome.failure]
  · intro e hc he
    simp only [SetMonitoringBaseResponse.from_json, h_status, assign, emplace_if_contains, hc,
      he, Outcome.and_then, if_true]
    cases h1 : j.contains "statusInfo"
    · simp [Outcome.result]
    · cases h2 : j.at_ "statusInfo" >>= T.statusInfo.from_json <;> simp [Outcome.result]

/-- Witness of C13: a wire object whose `statusInfo` is a number, and one whose
`customData` is null, decoded over `string_values`. -/
theorem nested_failures_propagate_witness :
    SetMonitoringBaseResponse.from_json
      (.object [("status", .string "Rejected"), ("statusInfo", .number_unsigned 5)])
      (SetMonitoringBaseResponse.default_constructed string_values) =
      .threw (.type_error_302 "string" "number")
        { SetMonitoringBaseResponse.default_constructed string_values with
          status := .Rejected, statusInfo := none } ∧
    (SetMonitoringBaseResponse.from_json
      (.object [("customData", .null), ("status", .string "Rejected")])
      (SetMonitoringBaseResponse.default_constructed string_values)).failure =
      some (.type_error_302 "string" "null") ∧
    (SetMonitoringBaseResponse.from_json sample_two_nested_failures
      (SetMonitoringBaseResponse.default_constructed string_values)).result = none :=
  ⟨(nested_failures_propagate string_values
      (.object [("status", .string "Rejected"), ("statusInfo", .number_unsigned 5)])
      (SetMonitoringBaseResponse.default_constructed string_values) .Rejected rfl).1 _ rfl rfl,
    (nested_failures_propagate string_values
      (.object [("customData", .null), ("status", .string "Rejected")])
      (SetMonitoringBaseResponse.default_constructed string_values) .Rejected rfl).2.1 _ rfl rfl
      rfl,
    (nested_failures_propagate string_values sample_two_nested_failures
      (SetMonitoringBaseResponse.default_constructed string_values) .Accepted rfl).2.2 _ rfl
      rfl⟩

/-- C14, as the spec states it, fails: the failure of decoding the wire object
whose `status` is `Bogus` is the `StringToEnumException` of the conversion
itself, and its message, which holds the string and the name of the
enumeration, does not hold the field name `status`. -/
theorem decode_failure_field_path_counterexample :
    (SetMonitoringBaseResponse.from_json (Json.of_pairs [("status", .string "Bogus")])
      (SetMonitoringBaseResponse.default_constructed string_values)).failure =
      some (.StringToEnumException "Bogus" "GenericDeviceModelStatusEnum") ∧
    StringToEnumException.what (string_view.of_string "Bogus")
        (string_view.of_string "GenericDeviceModelStatusEnum") =
      "Provided string \x27Bogus\x27 could not be converted to GenericDeviceModelStatusEnum" ∧
    occurs_in "status".toList
      (StringToEnumException.what (string_view.of_string "Bogus")
        (string_view.of_string "GenericDeviceModelStatusEnum")).toList = false := by
  refine ⟨rfl, by decide, by decide⟩

/-- C14, amended: when the member `status` of a wire object is a string that
is the canonical string of no enumerator, `from_json` of a SetMonitoringBase
response throws, unchanged and with the target untouched, the exception the
string-to-enum conversion raises for that string: a `StringToEnumException`
that holds the string and the name of the enumeration and no field name. -/
theorem decode_failure_is_inner_cause (T : ValueTypes) (members : List (String × Json))
    (s : String) (k : SetMonitoringBaseResponse T)
    (h_member : find "status" members = some (.string s))
    (h_unknown : ∀ e, generic_device_model_status_enum_to_string e ≠ s) :
    string_to_generic_device_model_status_enum s =
      .error (.StringToEnumException s "GenericDeviceModelStatusEnum") ∧
    SetMonitoringBaseResponse.from_json (.object members) k =
      .threw (.StringToEnumException s "GenericDeviceModelStatusEnum") k := by
  have h1 := h_unknown .Accepted
  have h2 := h_unknown .Rejected
  have h3 := h_unknown .NotSupported
  have h4 := h_unknown .EmptyResultSet
  simp only [generic_device_model_status_enum_to_string] at h1 h2 h3 h4
  have h_conv : string_to_generic_device_model_status_enum s =
      .error (.StringToEnumException s "GenericDeviceModelStatusEnum") := by
    simp [string_to_generic_device_model_status_enum, Ne.symm h1, Ne.symm h2, Ne.symm h3,
      Ne.symm h4]
  refine ⟨h_conv, ?_⟩
  simp [SetMonitoringBaseResponse.from_json, Json.at_, h_member, get_string, h_conv, assign,
    Outcome.and_then, bind, Except.bind]

/-- Witness of C14: a wire object with a further member and the status
`accepted`, which is not the canonical `Accepted`. -/
theorem decode_failure_is_inner_cause_witness :
    find "status" [("status", .string "accepted"), ("statusInfo", .null)] =
      some (.string "accepted") ∧
    (∀ e, generic_device_model_status_enum_to_string e ≠ "accepted") ∧
    SetMonitoringBaseResponse.from_json
      (.object [("status", .string "accepted"), ("statusInfo", .null)])
      (SetMonitoringBaseResponse.default_constructed string_values) =
      .threw (.StringToEnumException "accepted" "GenericDeviceModelStatusEnum")
        (SetMonitoringBaseResponse.default_constructed string_values) :=
  ⟨rfl, fun e => by cases e <;> decide,
    (decode_failure_is_inner_cause string_values
      [("status", .string "accepted"), ("statusInfo", .null)] "accepted"
      (SetMonitoringBaseResponse.default_constructed string_values) rfl
      (fun e => by cases e <;> decide)).2⟩

/-! ## Encoding -/

/-- C15: for every CustomerInformation request, CustomerInformation response,
SetMonitoringBase request and SetMonitoringBase response, with any enumerator
and any combination of set optional fields, `to_json` yields a wire object:
every `j[key] = value` it performs is applied to an object. -/
theorem encoding_never_fails (T : ValueTypes) (j0 : Json) :
    (∀ M : CustomerInformationRequest T,
      ∃ members, CustomerInformationRequest.to_json j0 M = .object members) ∧
    (∀ M : CustomerInformationResponse T,
      ∃ members, CustomerInformationResponse.to_json j0 M = .object members) ∧
    (∀ M : SetMonitoringBaseRequest T,
      ∃ members, SetMonitoringBaseRequest.to_json j0 M = .object members) ∧
    (∀ M : SetMonitoringBaseResponse T,
      ∃ members, SetMonitoringBaseResponse.to_json j0 M = .object members) := by
  refine ⟨?_, ?_, ?_, ?_⟩
  · rintro ⟨r, b, c, cc, it, ci, cd⟩
    cases cc <;> cases it <;> cases ci <;> cases cd <;>
      simp [CustomerInformationRequest.to_json, Json.of_pairs, Json.set]
  · rintro ⟨e, si, cd⟩
    cases si <;> cases cd <;>
      simp [CustomerInformationResponse.to_json, Json.of_pairs, Json.set]
  · rintro ⟨e, cd⟩
    cases cd <;>
      simp [SetMonitoringBaseRequest.to_json, Json.of_pairs, Json.set]
  · rintro ⟨e, si, cd⟩
    cases si <;> cases cd <;>
      simp [SetMonitoringBaseResponse.to_json, Json.of_pairs, Json.set]

/-- C16: `get_type` returns `CustomerInformation` for every CustomerInformation
request, `CustomerInformationResponse` for every CustomerInformation response,
`SetMonitoringBase` for every SetMonitoringBase request and
`SetMonitoringBaseResponse` for every SetMonitoringBase response, whatever the
fields of the message hold. -/
theorem get_type_stable (T : ValueTypes) :
    (∀ k : CustomerInformationRequest T, k.get_type = "CustomerInformation") ∧
    (∀ k : CustomerInformationResponse T, k.get_type = "CustomerInformationResponse") ∧
    (∀ k : SetMonitoringBaseRequest T, k.get_type = "SetMonitoringBase") ∧
    (∀ k : SetMonitoringBaseResponse T, k.get_type = "SetMonitoringBaseResponse") :=
  ⟨fun _ => rfl, fun _ => rfl, fun _ => rfl, fun _ => rfl⟩

/-! ## Enumerations and exact matching -/

/-- C17: for `MonitoringBaseEnum`, `GenericDeviceModelStatusEnum` and
`CustomerInformationStatusEnum`, converting the canonical string of an
enumerator back gives that enumerator, and distinct enumerators have distinct
canonical strings. -/
theorem enum_exhaustive :
    ((∀ e, string_to_monitoring_base_enum (monitoring_base_enum_to_string e) = .ok e) ∧
      Function.Injective monitoring_base_enum_to_string) ∧
    ((∀ e, string_to_generic_device_model_status_enum
        (generic_device_model_status_enum_to_string e) = .ok e) ∧
      Function.Injective generic_device_model_status_enum_to_string) ∧
    ((∀ e, string_to_customer_information_status_enum
        (customer_information_status_enum_to_string e) = .ok e) ∧
      Function.Injective customer_information_status_enum_to_string) := by
  refine ⟨⟨?_, ?_⟩, ⟨?_, ?_⟩, ⟨?_, ?_⟩⟩
  · intro e
    cases e <;> rfl
  · intro a b h
    cases a <;> cases b <;> first | rfl | exact absurd h (by decide)
  · intro e
    cases e <;> rfl
  · intro a b h
    cases a <;> cases b <;> first | rfl | exact absurd h (by decide)
  · intro e
    cases e <;> rfl
  · intro a b h
    cases a <;> cases b <;> first | rfl | exact absurd h (by decide)

/-- C18: when `s` differs from the canonical string `t` of an enumerator of
`GenericDeviceModelStatusEnum` only in the case of its letters, or only by
leading or trailing whitespace, decoding the wire object whose only member is
`status` with the string `s` into a SetMonitoringBase response throws the
`StringToEnumException` of `s`; such an `s` is never itself canonical. -/
theorem enumerator_matching_is_exact (T : ValueTypes) (t s : String)
    (k : SetMonitoringBaseResponse T)
    (h_t : ∃ e, generic_device_model_status_enum_to_string e = t)
    (h_s : differs_only_in_case s t ∨ differs_only_by_outer_whitespace s t) :
    (∀ e, generic_device_model_status_enum_to_string e ≠ s) ∧
    SetMonitoringBaseResponse.from_json (Json.of_pairs [("status", .string s)]) k =
      .threw (.StringToEnumException s "GenericDeviceModelStatusEnum") k := by
  have h_unknown : ∀ e, generic_device_model_status_enum_to_string e ≠ s := by
    intro e h_e
    obtain ⟨e2, h_e2⟩ := h_t
    subst h_e h_e2
    rcases h_s with ⟨h_ne, h_eq⟩ | ⟨h_ne, h_eq⟩
    · cases e <;> cases e2 <;>
        first
        | exact h_ne rfl
        | exact absurd h_eq (by decide)
    · cases e <;> cases e2 <;>
        first
        | exact h_ne rfl
        | exact absurd h_eq (by decide)
  refine ⟨h_unknown, ?_⟩
  have h1 := h_unknown .Accepted
  have h2 := h_unknown .Rejected
  have h3 := h_unknown .NotSupported
  have h4 := h_unknown .EmptyResultSet
  simp only [generic_device_model_status_enum_to_string] at h1 h2 h3 h4
  simp [SetMonitoringBaseResponse.from_json, Json.of_pairs, Json.at_, find, insert_or_assign,
    assign, Outcome.and_then, get_string, bind, Except.bind,
    string_to_generic_device_model_status_enum, Ne.symm h1, Ne.symm h2, Ne.symm h3, Ne.symm h4]

/-- Witness of C18: `accepted` and `ACCEPTED` differ from `Accepted` in letter
case, and `Accepted` with a leading or a trailing blank differs from it by
whitespace. -/
theorem enumerator_matching_is_exact_witness :
    differs_only_in_case "accepted" "Accepted" ∧
    SetMonitoringBaseResponse.from_json (Json.of_pairs [("status", .string "accepted")])
      (SetMonitoringBaseResponse.default_constructed string_values) =
      .threw (.StringToEnumException "accepted" "GenericDeviceModelStatusEnum")
        (SetMonitoringBaseResponse.default_constructed string_values) ∧
    differs_only_in_case "ACCEPTED" "Accepted" ∧
    SetMonitoringBaseResponse.from_json (Json.of_pairs [("status", .string "ACCEPTED")])
      (SetMonitoringBaseResponse.default_constructed string_values) =
      .threw (.StringToEnumException "ACCEPTED" "GenericDeviceModelStatusEnum")
        (SetMonitoringBaseResponse.default_constructed string_values) ∧
    differs_only_by_outer_whitespace " Accepted" "Accepted" ∧
    SetMonitoringBaseResponse.from_json (Json.of_pairs [("status", .string " Accepted")])
      (SetMonitoringBaseResponse.default_constructed string_values) =
      .threw (.StringToEnumException " Accepted" "GenericDeviceModelStatusEnum")
        (SetMonitoringBaseResponse.default_constructed string_values) ∧
    differs_only_by_outer_whitespace "Accepted " "Accepted" ∧
    SetMonitoringBaseResponse.from_json (Json.of_pairs [("status", .string "Accepted ")])
      (SetMonitoringBaseResponse.default_constructed string_values) =
      .threw (.StringToEnumException "Accepted " "GenericDeviceModelStatusEnum")
        (SetMonitoringBaseResponse.default_constructed string_values) :=
  ⟨⟨by decide, by decide⟩,
    (enumerator_matching_is_exact string_values "Accepted" "accepted" _ ⟨.Accepted, rfl⟩
      (Or.inl ⟨by decide, by decide⟩)).2,
    ⟨by decide, by decide⟩,
    (enumerator_matching_is_exact string_values "Accepted" "ACCEPTED" _ ⟨.Accepted, rfl⟩
      (Or.inl ⟨by decide, by decide⟩)).2,
    ⟨by decide, by decide⟩,
    (enumerator_matching_is_exact string_values "Accepted" " Accepted" _ ⟨.Accepted, rfl⟩
      (Or.inr ⟨by decide, by decide⟩)).2,
    ⟨by decide, by decide⟩,
    (enumerator_matching_is_exact string_values "Accepted" "Accepted " _ ⟨.Accepted, rfl⟩
      (Or.inr ⟨by decide, by decide⟩)).2⟩

/-- C19: a member under a key that is not exactly a schema key is decoded as
if it were not there.  A wire object that holds no member under the exact key
`requestId`, whatever member it holds under a key spelled otherwise, makes
`from_json` of a CustomerInformation request throw the missing-field error
naming `requestId`; and when a wire object holds no member under the exact key
`customData`, a member under a key spelled otherwise leaves the `customData`
of a returned message unset. -/
theorem field_names_matched_exactly (T : ValueTypes) (members : List (String × Json))
    (key : String) (val : Json) :
    (key ∉ CustomerInformationRequest.schema_keys →
      ∀ k : CustomerInformationRequest T,
        CustomerInformationRequest.from_json ((Json.object members).set key val) k =
          CustomerInformationRequest.from_json (.object members) k) ∧
    (key ≠ "requestId" → (Json.object members).contains "requestId" = false →
      ∀ k : CustomerInformationRequest T,
        CustomerInformationRequest.from_json ((Json.object members).set key val) k =
          .threw (.out_of_range_403 "requestId") k) ∧
    (key ≠ "customData" → (Json.object members).contains "customData" = false →
      ∀ M : CustomerInformationRequest T,
        CustomerInformationRequest.from_json ((Json.object members).set key val)
          (CustomerInformationRequest.default_constructed T) = .returned M →
        M.customData = none) := by
  refine ⟨?_, ?_, ?_⟩
  · intro h_key k
    apply customer_information_request_from_json_congr
    intro key2 h_key2
    have h_ne : key2 ≠ key := by
      intro h
      subst h
      exact h_key h_key2
    exact find_insert_or_assign_of_ne h_ne _ _
  · intro h_key h_absent k
    have h_c : (Json.object (insert_or_assign key val members)).contains "requestId" = false := by
      simpa [Json.contains, find_insert_or_assign_of_ne (Ne.symm h_key)] using h_absent
    simp [CustomerInformationRequest.from_json, Json.set, at_object_of_contains_false h_c,
      assign, Outcome.and_then, bind, Except.bind]
  · intro h_key h_absent M h
    have h_c : (Json.object (insert_or_assign key val members)).contains "customData" = false := by
      simpa [Json.contains, find_insert_or_assign_of_ne (Ne.symm h_key)] using h_absent
    simp only [CustomerInformationRequest.from_json, Json.set, and_then_eq_returned,
      assign_eq_returned, emplace_if_contains_eq_returned, h_c, Bool.false_eq_true, false_and,
      false_or, true_and] at h
    obtain ⟨k1, ⟨r, -, rfl⟩, k2, ⟨b, -, rfl⟩, k3, ⟨c, -, rfl⟩, k4, h4, k5, h5, k6, h6, rfl⟩ := h
    rcases h4 with ⟨-, v4, -, rfl⟩ | ⟨-, rfl⟩ <;>
    rcases h5 with ⟨-, v5, -, rfl⟩ | ⟨-, rfl⟩ <;>
    rcases h6 with ⟨-, v6, -, rfl⟩ | ⟨-, rfl⟩ <;>
    rfl

/-- Witness of C19: `requestId` spelled `requestID` and `RequestId`, and
`customData` spelled `CustomData`. -/
theorem field_names_matched_exactly_witness :
    CustomerInformationRequest.from_json
      ((Json.object [("clear", .boolean false), ("report", .boolean true)]).set "requestID"
        (.number_unsigned 42))
      (CustomerInformationRequest.default_constructed string_values) =
      CustomerInformationRequest.from_json
        (.object [("clear", .boolean false), ("report", .boolean true)])
        (CustomerInformationRequest.default_constructed string_values) ∧
    CustomerInformationRequest.from_json
      ((Json.object [("clear", .boolean false), ("report", .boolean true)]).set "RequestId"
        (.number_unsigned 42))
      (CustomerInformationRequest.default_constructed string_values) =
      .threw (.out_of_range_403 "requestId")
        (CustomerInformationRequest.default_constructed string_values) ∧
    CustomerInformationRequest.from_json
      ((Json.object [("clear", .boolean false), ("report", .boolean true),
        ("requestId", .number_unsigned 42)]).set "CustomData" (.string "vendor"))
      (CustomerInformationRequest.default_constructed string_values) =
      .returned { requestId := 42, report := true, clear := false, customerCertificate := none,
                  idToken := none, customerIdentifier := none, customData := none } ∧
    ({ requestId := 42, report := true, clear := false, customerCertificate := none,
       idToken := none, customerIdentifier := none, customData := none } :
      CustomerInformationRequest string_values).customData = none :=
  ⟨(field_names_matched_exactly string_values
      [("clear", .boolean false), ("report", .boolean true)] "requestID"
      (.number_unsigned 42)).1 (by decide) _,
    (field_names_matched_exactly string_values
      [("clear", .boolean false), ("report", .boolean true)] "RequestId"
      (.number_unsigned 42)).2.1 (by decide) rfl _,
    rfl,
    (field_names_matched_exactly string_values
      [("clear", .boolean false), ("report", .boolean true),
        ("requestId", .number_unsigned 42)] "CustomData" (.string "vendor")).2.2 (by decide)
      rfl _ rfl⟩

/-! ## Timestamps and their parse failure -/

/-- C21: constructing a timestamp from `2024-01-05T10:15:30Z` succeeds, with
the instant 1704449730 seconds after the epoch, and constructing it from
`2024-01-05 10:15:30` fails with the `TimePointParseException` of that string;
no instant is produced. -/
theorem timestamp_acceptance_and_rejection :
    DateTime.of_string "2024-01-05T10:15:30Z" = .ok { timepoint := 1704449730 } ∧
    DateTime.of_string "2024-01-05 10:15:30" =
      .error (.TimePointParseException "2024-01-05 10:15:30") ∧
    (∀ dt, DateTime.of_string "2024-01-05 10:15:30" ≠ .ok dt) := by
  have h_rejected : DateTime.of_string "2024-01-05 10:15:30" =
      .error (.TimePointParseException "2024-01-05 10:15:30") := by
    unfold DateTime.of_string DateTime.from_rfc3339
    rw [rfc3339_fields_scenario_rejected]
  refine ⟨?_, h_rejected, ?_⟩
  · unfold DateTime.of_string DateTime.from_rfc3339
    rw [rfc3339_fields_scenario_accepted]
    norm_num
  · intro dt h
    rw [h_rejected] at h
    cases h

/-- C22, as the spec states it, fails: for a string with a NUL character the
C string `what()` returns ends before the NUL, so the string does not occur
in it in full, and two different strings give the same message. -/
theorem time_point_parse_message_counterexample :
    sample_string_with_nul_b ≠ sample_string_with_nul_c ∧
    TimePointParseException.what sample_string_with_nul_b =
      "Timepoint string parsing failed. Could not convert: \x22a" ∧
    TimePointParseException.what sample_string_with_nul_c =
      "Timepoint string parsing failed. Could not convert: \x22a" := by
  decide

/-- C22, amended: the member `msg` of a `TimePointParseException` constructed
from `s` is the fixed text around `s` for every string `s`; for every `s`
without a NUL character the C string `what()` returns is that same text, so
`s` occurs in it verbatim, and two failures built from different strings
without a NUL character have different messages. -/
theorem time_point_parse_message (s : String) :
    TimePointParseException.msg s =
      "Timepoint string parsing failed. Could not convert: \x22" ++ s ++
        "\x22 into DateTime." ∧
    ((∀ c ∈ s.toList, c ≠ Char.ofNat 0) →
      TimePointParseException.what s =
        "Timepoint string parsing failed. Could not convert: \x22" ++ s ++
          "\x22 into DateTime.") ∧
    (∀ t : String, (∀ c ∈ s.toList, c ≠ Char.ofNat 0) → (∀ c ∈ t.toList, c ≠ Char.ofNat 0) →
      TimePointParseException.what s = TimePointParseException.what t → s = t) := by
  have h_what : ∀ u : String, (∀ c ∈ u.toList, c ≠ Char.ofNat 0) →
      TimePointParseException.what u =
        "Timepoint string parsing failed. Could not convert: \x22" ++ u ++
          "\x22 into DateTime." := by
    intro u hu
    unfold TimePointParseException.what TimePointParseException.msg
    apply c_str_of_no_nul
    exact no_nul_append (no_nul_append (by decide) hu) (by decide)
  refine ⟨rfl, h_what s, ?_⟩
  intro t hs ht h
  rw [h_what s hs, h_what t ht] at h
  exact append_between_cancel h

/-- Witness of C22: the rejected string of the third concrete scenario and a
second string. -/
theorem time_point_parse_message_witness :
    TimePointParseException.what "2024-01-05 10:15:30" =
      "Timepoint string parsing failed. Could not convert: \x222024-01-05 10:15:30\x22 into DateTime." ∧
    (TimePointParseException.what "2024-01-05 10:15:30" = TimePointParseException.what "now" →
      "2024-01-05 10:15:30" = "now") :=
  ⟨(time_point_parse_message "2024-01-05 10:15:30").2.1 (by decide),
    (time_point_parse_message "2024-01-05 10:15:30").2.2 "now" (by decide) (by decide)⟩

/-! ## Bounded strings and exception messages -/

/-- C23: for every bound `N`, constructing a bounded string from a string of
length at most `N` succeeds and keeps the string unchanged, and constructing
it from a longer string fails with a length violation; nothing is
truncated. -/
theorem bounded_string_limit (N : Nat) (s : String) :
    (s.length ≤ N → ∃ c, CiString.make N s = .ok c ∧ c.data = s) ∧
    (N < s.length → CiString.make N s = .error (.too_long s.length N)) := by
  constructor
  · intro h
    exact ⟨{ data := s, within_bound := h }, by simp [CiString.make, h], rfl⟩
  · intro h
    simp [CiString.make, Nat.not_le.mpr h]

/-- Witness of C23: the bound 20 of the fourth concrete scenario with a string
of 20 and one of 21 characters, and the bounds 128 and 40 of
`CertificateHashDataType` with strings that are one character too long. -/
theorem bounded_string_limit_witness :
    (∃ c, CiString.make 20 "01234567890123456789" = .ok c ∧
      c.data = "01234567890123456789") ∧
    CiString.make 20 "012345678901234567890" = .error (.too_long 21 20) ∧
    CiString.make 40 (String.mk (List.replicate 41 'a')) =
      .error (.too_long (String.mk (List.replicate 41 'a')).length 40) ∧
    CiString.make 128 (String.mk (List.replicate 129 'a')) =
      .error (.too_long (String.mk (List.replicate 129 'a')).length 128) :=
  ⟨(bounded_string_limit 20 "01234567890123456789").1 (by decide),
    (bounded_string_limit 20 "012345678901234567890").2 (by decide),
    (bounded_string_limit 40 (String.mk (List.replicate 41 'a'))).2 (by decide),
    (bounded_string_limit 128 (String.mk (List.replicate 129 'a'))).2 (by decide)⟩

/-- C25: each comparison of two timestamps holds exactly when the same
comparison holds between their instants; exactly one of `a < b`, `a == b`,
`a > b` holds, and `a <= b` holds exactly when `a < b` or `a == b` does. -/
theorem timestamp_ordering (a b : DateTime) :
    (a.lt b = true ↔ a.to_time_point < b.to_time_point) ∧
    (a.le b = true ↔ a.to_time_point ≤ b.to_time_point) ∧
    (a.gt b = true ↔ a.to_time_point > b.to_time_point) ∧
    (a.ge b = true ↔ a.to_time_point ≥ b.to_time_point) ∧
    (a.eq b = true ↔ a.to_time_point = b.to_time_point) ∧
    (a.lt b = true ∨ a.eq b = true ∨ a.gt b = true) ∧
    ¬ (a.lt b = true ∧ a.eq b = true) ∧
    ¬ (a.lt b = true ∧ a.gt b = true) ∧
    ¬ (a.eq b = true ∧ a.gt b = true) ∧
    (a.le b = true ↔ (a.lt b = true ∨ a.eq b = true)) := by
  have h_lt : a.lt b = true ↔ a.to_time_point < b.to_time_point := by
    simp only [DateTime.lt, decide_eq_true_eq]
  have h_le : a.le b = true ↔ a.to_time_point ≤ b.to_time_point := by
    simp only [DateTime.le, decide_eq_true_eq]
  have h_gt : a.gt b = true ↔ a.to_time_point > b.to_time_point := by
    simp only [DateTime.gt, decide_eq_true_eq]
  have h_ge : a.ge b = true ↔ a.to_time_point ≥ b.to_time_point := by
    simp only [DateTime.ge, decide_eq_true_eq]
  have h_eq : a.eq b = true ↔ a.to_time_point = b.to_time_point := by
    simp only [DateTime.eq, decide_eq_true_eq]
  refine ⟨h_lt, h_le, h_gt, h_ge, h_eq, ?_, ?_, ?_, ?_, ?_⟩
  · rw [h_lt, h_eq, h_gt]
    exact lt_trichotomy _ _
  · rw [h_lt, h_eq]
    rintro ⟨h1, h2⟩
    exact absurd h2 (ne_of_lt h1)
  · rw [h_lt, h_gt]
    rintro ⟨h1, h2⟩
    exact lt_asymm h1 h2
  · rw [h_eq, h_gt]
    rintro ⟨h1, h2⟩
    exact absurd h1.symm (ne_of_lt h2)
  · rw [h_le, h_lt, h_eq]
    exact le_iff_lt_or_eq

/-- C27: `string_to_bool` gives true exactly for the string `true`, so it
gives false for `True`, `1` and the empty string; `bool_to_string` gives
`true` or `false`; and converting a boolean to a string and back gives the
boolean. -/
theorem bool_string_conversion :
    (∀ s, string_to_bool s = true ↔ s = "true") ∧
    string_to_bool "True" = false ∧ string_to_bool "1" = false ∧ string_to_bool "" = false ∧
    (∀ b, bool_to_string b = "true" ∨ bool_to_string b = "false") ∧
    (∀ b, string_to_bool (bool_to_string b) = b) := by
  refine ⟨fun s => by simp [string_to_bool], by decide, by decide, by decide, ?_, ?_⟩
  · intro b
    cases b <;> simp [bool_to_string]
  · intro b
    cases b <;> decide

/-! ## UpdateFirmware of OCPP 1.6 -/

/-- C26, as the spec states it, fails whatever the order in which the fields
are read: when `location` is read first, the wire object whose only member is
a `location` that is a number lacks `retrieveDate` and fails with the type
error of `location`; when `retrieveDate` is read first, the wire object whose
only member is a `retrieveDate` that is a number lacks `location` and fails
with the type error of `retrieveDate`. -/
theorem update_firmware_fields_counterexample :
    (Json.of_pairs [("location", .number_unsigned 5)]).contains "retrieveDate" = false ∧
    (v16.UpdateFirmwareRequest.from_json true true
      (Json.of_pairs [("location", .number_unsigned 5)])
      (v16.UpdateFirmwareRequest.default_constructed { timepoint := 0 })).failure =
      some (.type_error_302 "string" "number") ∧
    (v16.UpdateFirmwareRequest.from_json true false
      (Json.of_pairs [("location", .number_unsigned 5)])
      (v16.UpdateFirmwareRequest.default_constructed { timepoint := 0 })).failure =
      some (.type_error_302 "string" "number") ∧
    (Json.of_pairs [("retrieveDate", .number_unsigned 5)]).contains "location" = false ∧
    (v16.UpdateFirmwareRequest.from_json false true
      (Json.of_pairs [("retrieveDate", .number_unsigned 5)])
      (v16.UpdateFirmwareRequest.default_constructed { timepoint := 0 })).failure =
      some (.type_error_302 "string" "number") ∧
    (v16.UpdateFirmwareRequest.from_json false false
      (Json.of_pairs [("retrieveDate", .number_unsigned 5)])
      (v16.UpdateFirmwareRequest.default_constructed { timepoint := 0 })).failure =
      some (.type_error_302 "string" "number") :=
  ⟨rfl, rfl, rfl, rfl, rfl, rfl⟩

/-- C26, amended: in whatever order the fields are read, a wire object with
exactly the members `location`, a string, and `retrieveDate`, a string the
timestamp parser accepts, decodes into an UpdateFirmware request with
`retries` and `retryInterval` unset; a wire object without `location` or
without `retrieveDate` always fails, with the missing-field error naming that
key when the other required member is present and valid, and with the
missing-field error naming one of the two when both are absent; the encoding
of a request with `retries` and `retryInterval` unset has exactly the keys
`location` and `retrieveDate`. -/
theorem update_firmware_fields (location_first retries_first : Bool)
    (members : List (String × Json)) (location timepoint_str : String)
    (dt now : DateTime) (k : v16.UpdateFirmwareRequest) (to_rfc3339 : DateTime → String)
    (j0 : Json) :
    (DateTime.of_string timepoint_str = .ok dt →
      v16.UpdateFirmwareRequest.from_json location_first retries_first
        (Json.of_pairs [("location", .string location), ("retrieveDate", .string timepoint_str)])
        (v16.UpdateFirmwareRequest.default_constructed now) =
        .returned { location := location, retrieveDate := dt, retries := none,
                    retryInterval := none }) ∧
    ((Json.object members).contains "location" = false →
      ((Json.object members).at_ "retrieveDate" >>= get_string >>= DateTime.of_string) =
        .ok dt →
      (v16.UpdateFirmwareRequest.from_json location_first retries_first
        (.object members) k).failure = some (.out_of_range_403 "location")) ∧
    ((Json.object members).contains "retrieveDate" = false →
      ((Json.object members).at_ "location" >>= get_string) = .ok location →
      (v16.UpdateFirmwareRequest.from_json location_first retries_first
        (.object members) k).failure = some (.out_of_range_403 "retrieveDate")) ∧
    ((Json.object members).contains "location" = false →
      (Json.object members).contains "retrieveDate" = false →
      (v16.UpdateFirmwareRequest.from_json location_first retries_first
        (.object members) k).failure = some (.out_of_range_403 "location") ∨
      (v16.UpdateFirmwareRequest.from_json location_first retries_first
        (.object members) k).failure = some (.out_of_range_403 "retrieveDate")) ∧
    (((Json.object members).contains "location" = false ∨
        (Json.object members).contains "retrieveDate" = false) →
      (v16.UpdateFirmwareRequest.from_json location_first retries_first
        (.object members) k).result = none) ∧
    (k.retries = none → k.retryInterval = none →
      ∀ key, (v16.UpdateFirmwareRequest.to_json to_rfc3339 j0 k).contains key = true ↔
        (key = "location" ∨ key = "retrieveDate")) := by
  refine ⟨?_, ?_, ?_, ?_, ?_, ?_⟩
  · intro h
    cases location_first <;> cases retries_first <;>
      simp [v16.UpdateFirmwareRequest.from_json, v16.UpdateFirmwareRequest.read_location,
        v16.UpdateFirmwareRequest.read_retrieveDate, v16.UpdateFirmwareRequest.read_retries,
        v16.UpdateFirmwareRequest.read_retryInterval,
        v16.UpdateFirmwareRequest.default_constructed,
        of_pairs_update_firmware, Json.at_, Json.contains, find, assign, emplace_if_contains,
        Outcome.and_then, get_string, bind, Except.bind, h]
  · intro h h_date
    have h_rl : ∀ k0, v16.UpdateFirmwareRequest.read_location (.object members) k0 =
        .threw (.out_of_range_403 "location") k0 := by
      intro k0
      simp [v16.UpdateFirmwareRequest.read_location, at_object_of_contains_false h, assign,
        bind, Except.bind]
    have h_rd : ∀ k0, v16.UpdateFirmwareRequest.read_retrieveDate (.object members) k0 =
        .returned { k0 with retrieveDate := dt } := by
      intro k0
      simp only [v16.UpdateFirmwareRequest.read_retrieveDate, h_date, assign]
    cases location_first <;> cases retries_first <;>
      simp [v16.UpdateFirmwareRequest.from_json, h_rl, h_rd, Outcome.and_then, Outcome.failure]
  · intro h h_loc
    have h_rl : ∀ k0, v16.UpdateFirmwareRequest.read_location (.object members) k0 =
        .returned { k0 with location := location } := by
      intro k0
      simp only [v16.UpdateFirmwareRequest.read_location, h_loc, assign]
    have h_rd : ∀ k0, v16.UpdateFirmwareRequest.read_retrieveDate (.object members) k0 =
        .threw (.out_of_range_403 "retrieveDate") k0 := by
      intro k0
      simp [v16.UpdateFirmwareRequest.read_retrieveDate, at_object_of_contains_false h, assign,
        bind, Except.bind]
    cases location_first <;> cases retries_first <;>
      simp [v16.UpdateFirmwareRequest.from_json, h_rl, h_rd, Outcome.and_then, Outcome.failure]
  · intro h1 h2
    have h_rl : ∀ k0, v16.UpdateFirmwareRequest.read_location (.object members) k0 =
        .threw (.out_of_range_403 "location") k0 := by
      intro k0
      simp [v16.UpdateFirmwareRequest.read_location, at_object_of_contains_false h1, assign,
        bind, Except.bind]
    have h_rd : ∀ k0, v16.UpdateFirmwareRequest.read_retrieveDate (.object members) k0 =
        .threw (.out_of_range_403 "retrieveDate") k0 := by
      intro k0
      simp [v16.UpdateFirmwareRequest.read_retrieveDate, at_object_of_contains_false h2, assign,
        bind, Except.bind]
    cases location_first <;> cases retries_first <;>
      simp [v16.UpdateFirmwareRequest.from_json, h_rl, h_rd, Outcome.and_then, Outcome.failure]
  · intro h
    have h_rl : (Json.object members).contains "location" = false →
        ∀ k0, v16.UpdateFirmwareRequest.read_location (.object members) k0 =
          .threw (.out_of_range_403 "location") k0 := by
      intro h1 k0
      simp [v16.UpdateFirmwareRequest.read_location, at_object_of_contains_false h1, assign,
        bind, Except.bind]
    have h_rd : (Json.object members).contains "retrieveDate" = false →
        ∀ k0, v16.UpdateFirmwareRequest.read_retrieveDate (.object members) k0 =
          .threw (.out_of_range_403 "retrieveDate") k0 := by
      intro h1 k0
      simp [v16.UpdateFirmwareRequest.read_retrieveDate, at_object_of_contains_false h1, assign,
        bind, Except.bind]
    rcases h with h | h
    · cases location_first
      · cases h_first : v16.UpdateFirmwareRequest.read_retrieveDate (.object members) k <;>
          simp [v16.UpdateFirmwareRequest.from_json, h_first, h_rl h, Outcome.and_then,
            Outcome.result]
      · simp [v16.UpdateFirmwareRequest.from_json, h_rl h, Outcome.and_then, Outcome.result]
    · cases location_first
      · simp [v16.UpdateFirmwareRequest.from_json, h_rd h, Outcome.and_then, Outcome.result]
      · cases h_first : v16.UpdateFirmwareRequest.read_location (.object members) k <;>
          simp [v16.UpdateFirmwareRequest.from_json, h_first, h_rd h, Outcome.and_then,
            Outcome.result]
  · intro h1 h2 key
    simp only [v16.UpdateFirmwareRequest.to_json, of_pairs_update_firmware, h1, h2,
      Json.contains, find]
    split_ifs <;> simp_all

/-- The amended C26 at concrete objects, with `retrieveDate` read before
`location` and `retryInterval` before `retries`: the two-member wire object
decodes; the object lacking `location` and the one lacking `retrieveDate` fail
with the missing-field error of that key; the empty object fails with one of
the two; the encoding has the key `retrieveDate`. -/
theorem update_firmware_fields_witness :
    v16.UpdateFirmwareRequest.from_json false false
      (Json.of_pairs [("location", .string "ftp://host/fw.bin"),
        ("retrieveDate", .string "2024-01-05T10:15:30Z")])
      (v16.UpdateFirmwareRequest.default_constructed { timepoint := 0 }) =
      .returned { location := "ftp://host/fw.bin", retrieveDate := { timepoint := 1704449730 },
                  retries := none, retryInterval := none } ∧
    (v16.UpdateFirmwareRequest.from_json false false
      (.object [("retrieveDate", .string "2024-01-05T10:15:30Z")])
      (v16.UpdateFirmwareRequest.default_constructed { timepoint := 0 })).failure =
      some (.out_of_range_403 "location") ∧
    (v16.UpdateFirmwareRequest.from_json false false
      (.object [("location", .string "ftp://host/fw.bin")])
      (v16.UpdateFirmwareRequest.default_constructed { timepoint := 0 })).failure =
      some (.out_of_range_403 "retrieveDate") ∧
    ((v16.UpdateFirmwareRequest.from_json false false (.object [])
      (v16.UpdateFirmwareRequest.default_constructed { timepoint := 0 })).failure =
      some (.out_of_range_403 "location") ∨
    (v16.UpdateFirmwareRequest.from_json false false (.object [])
      (v16.UpdateFirmwareRequest.default_constructed { timepoint := 0 })).failure =
      some (.out_of_range_403 "retrieveDate")) ∧
    (v16.UpdateFirmwareRequest.from_json false false
      (.object [("location", .number_unsigned 5)])
      (v16.UpdateFirmwareRequest.default_constructed { timepoint := 0 })).result = none ∧
    ((v16.UpdateFirmwareRequest.to_json (fun _ => "2024-01-05T10:15:30.000Z") .null
        (v16.UpdateFirmwareRequest.default_constructed { timepoint := 0 })).contains "retrieveDate"
        = true ↔ ("retrieveDate" = "location" ∨ "retrieveDate" = "retrieveDate")) := by
  have h_dt : DateTime.of_string "2024-01-05T10:15:30Z" = .ok { timepoint := 1704449730 } := by
    unfold DateTime.of_string DateTime.from_rfc3339
    rw [rfc3339_fields_scenario_accepted]
    norm_num
  have h_read : ((Json.object [("retrieveDate", .string "2024-01-05T10:15:30Z")]).at_
      "retrieveDate" >>= get_string >>= DateTime.of_string) =
      .ok { timepoint := 1704449730 } := by
    rw [← h_dt]
    rfl
  exact ⟨(update_firmware_fields false false [] "ftp://host/fw.bin" "2024-01-05T10:15:30Z"
      { timepoint := 1704449730 } { timepoint := 0 }
      (v16.UpdateFirmwareRequest.default_constructed { timepoint := 0 }) (fun _ => "") .null).1
      h_dt,
    (update_firmware_fields false false [("retrieveDate", .string "2024-01-05T10:15:30Z")] "" ""
      { timepoint := 1704449730 } { timepoint := 0 }
      (v16.UpdateFirmwareRequest.default_constructed { timepoint := 0 }) (fun _ => "")
      .null).2.1 rfl h_read,
    (update_firmware_fields false false [("location", .string "ftp://host/fw.bin")]
      "ftp://host/fw.bin" "" { timepoint := 0 } { timepoint := 0 }
      (v16.UpdateFirmwareRequest.default_constructed { timepoint := 0 }) (fun _ => "")
      .null).2.2.1 rfl rfl,
    (update_firmware_fields false false [] "" "" { timepoint := 0 } { timepoint := 0 }
      (v16.UpdateFirmwareRequest.default_constructed { timepoint := 0 }) (fun _ => "")
      .null).2.2.2.1 rfl rfl,
    (update_firmware_fields false false [("location", .number_unsigned 5)] "" ""
      { timepoint := 0 } { timepoint := 0 }
      (v16.UpdateFirmwareRequest.default_constructed { timepoint := 0 }) (fun _ => "")
      .null).2.2.2.2.1 (Or.inr rfl),
    (update_firmware_fields false false [] "" "" { timepoint := 0 } { timepoint := 0 }
      (v16.UpdateFirmwareRequest.default_constructed { timepoint := 0 })
      (fun _ => "2024-01-05T10:15:30.000Z") .null).2.2.2.2.2 rfl rfl "retrieveDate"⟩

/-! ## Decoding and encoding in turn -/

/-- C28: a wire object whose keys are exactly `requestId`, `report` and
`clear`, with `requestId` a JSON integer of value `r` in the range of
`int32_t` and `report` and `clear` JSON booleans, decodes into a
default-constructed CustomerInformation request, and encoding the result gives
the object with the same three keys, the same booleans and the integer `r`,
and no further key; this is the wire object itself when it holds `r` as a
signed integer, and differs from it only in holding `r` as a signed instead of
an unsigned integer otherwise. -/
theorem wire_round_trip_required_only (T : ValueTypes) (members : List (String × Json))
    (r : Int) (b c : Bool) (j0 : Json)
    (h_map : strictly_increasing_keys members)
    (h_keys : ∀ key, (Json.object members).contains key = true ↔
      (key = "requestId" ∨ key = "report" ∨ key = "clear"))
    (h_id : find "requestId" members = some (.number_integer r) ∨
      (0 ≤ r ∧ find "requestId" members = some (.number_unsigned r.toNat)))
    (h_r : is_int32 r)
    (h_report : find "report" members = some (.boolean b))
    (h_clear : find "clear" members = some (.boolean c)) :
    ∃ M, CustomerInformationRequest.from_json (.object members)
        (CustomerInformationRequest.default_constructed T) = .returned M ∧
      CustomerInformationRequest.to_json j0 M =
        .object [("clear", .boolean c), ("report", .boolean b),
          ("requestId", .number_integer r)] ∧
      (find "requestId" members = some (.number_integer r) →
        CustomerInformationRequest.to_json j0 M = .object members) := by
  obtain ⟨v1, v2, v3, rfl⟩ := members_of_required_keys h_map h_keys
  have hw := wrap_int32_of_is_int32 h_r
  simp only [find, String.reduceEq, if_false, if_true, Option.some.injEq] at h_report h_clear h_id
  subst h_report h_clear
  refine ⟨{ requestId := r, report := b, clear := c, customerCertificate := none,
            idToken := none, customerIdentifier := none, customData := none }, ?_, ?_, ?_⟩
  · rcases h_id with h | ⟨h0, h⟩
    · subst h
      simp +decide [CustomerInformationRequest.from_json,
        CustomerInformationRequest.default_constructed, Json.at_, Json.contains, find, assign,
        emplace_if_contains, Outcome.and_then, get_int32, get_bool, hw, bind, Except.bind]
    · subst h
      have hn : ((r.toNat : Nat) : Int) = r := Int.toNat_of_nonneg h0
      simp +decide [CustomerInformationRequest.from_json,
        CustomerInformationRequest.default_constructed, Json.at_, Json.contains, find, assign,
        emplace_if_contains, Outcome.and_then, get_int32, get_bool, hw, hn, bind, Except.bind]
  · simp only [CustomerInformationRequest.to_json, of_pairs_request]
  · intro h
    simp only [find, String.reduceEq, if_false, if_true, Option.some.injEq] at h
    subst h
    simp only [CustomerInformationRequest.to_json, of_pairs_request]

/-- Witness of C28: the wire object of the first concrete scenario, in which
the parser holds 42 as an unsigned integer. -/
theorem wire_round_trip_required_only_witness :
    ∃ M, CustomerInformationRequest.from_json (.object sample_required_members)
        (CustomerInformationRequest.default_constructed string_values) = .returned M ∧
      CustomerInformationRequest.to_json .null M =
        .object [("clear", .boolean false), ("report", .boolean true),
          ("requestId", .number_integer 42)] :=
  (wire_round_trip_required_only string_values sample_required_members 42 true false .null
    sample_required_members_increasing sample_required_members_keys
    (Or.inr ⟨by decide, rfl⟩) (by decide) rfl rfl).imp (fun _ h => ⟨h.1, h.2.1⟩)

/-- C29: when `from_json` of a CustomerInformation request returns, each
optional field whose key the wire value does not contain holds what it held
in the target before the call, whatever the target was. -/
theorem absent_optionals_untouched (T : ValueTypes) (j : Json)
    (k M : CustomerInformationRequest T)
    (h : CustomerInformationRequest.from_json j k = .returned M) :
    (j.contains "customerCertificate" = false →
      M.customerCertificate = k.customerCertificate) ∧
    (j.contains "idToken" = false → M.idToken = k.idToken) ∧
    (j.contains "customerIdentifier" = false → M.customerIdentifier = k.customerIdentifier) ∧
    (j.contains "customData" = false → M.customData = k.customData) := by
  unfold CustomerInformationRequest.from_json at h
  simp only [and_then_eq_returned, assign_eq_returned, emplace_if_contains_eq_returned] at h
  obtain ⟨k1, ⟨r, -, rfl⟩, k2, ⟨b, -, rfl⟩, k3, ⟨c, -, rfl⟩, k4, h4, k5, h5, k6, h6, h7⟩ := h
  rcases h4 with ⟨c4, v4, e4, rfl⟩ | ⟨c4, rfl⟩ <;>
  rcases h5 with ⟨c5, v5, e5, rfl⟩ | ⟨c5, rfl⟩ <;>
  rcases h6 with ⟨c6, v6, e6, rfl⟩ | ⟨c6, rfl⟩ <;>
  rcases h7 with ⟨c7, v7, e7, rfl⟩ | ⟨c7, rfl⟩ <;>
  simp [c4, c5, c6, c7]

/-- Witness of C29: decoding the wire object of the first concrete scenario
into a target whose `customData` and `idToken` are set leaves both set. -/
theorem absent_optionals_untouched_witness :
    CustomerInformationRequest.from_json (.object sample_required_members) sample_target =
      .returned { requestId := 42, report := true, clear := false,
                  customerCertificate := none, idToken := some ("old token" : String),
                  customerIdentifier := none, customData := some ("old vendor" : String) } ∧
    (some ("old vendor" : String) : Option string_values.CustomData) =
      sample_target.customData :=
  ⟨rfl,
    (absent_optionals_untouched string_values (.object sample_required_members) sample_target
      { requestId := 42, report := true, clear := false, customerCertificate := none,
        idToken := some ("old token" : String), customerIdentifier := none,
        customData := some ("old vendor" : String) } rfl).2.2.2 rfl⟩

/-- C30: what `to_json` leaves in the output object does not depend on what
the object held before the call, for each of the four message types, and a
key that `to_json` does not emit is not in the output object after the call,
whatever the object held before. -/
theorem encoding_ignores_previous_content (T : ValueTypes) (j1 j2 : Json) :
    (∀ M : CustomerInformationRequest T,
      CustomerInformationRequest.to_json j1 M = CustomerInformationRequest.to_json j2 M) ∧
    (∀ M : CustomerInformationResponse T,
      CustomerInformationResponse.to_json j1 M = CustomerInformationResponse.to_json j2 M) ∧
    (∀ M : SetMonitoringBaseRequest T,
      SetMonitoringBaseRequest.to_json j1 M = SetMonitoringBaseRequest.to_json j2 M) ∧
    (∀ M : SetMonitoringBaseResponse T,
      SetMonitoringBaseResponse.to_json j1 M = SetMonitoringBaseResponse.to_json j2 M) ∧
    (∀ (M : CustomerInformationRequest T) (key : String),
      key ∉ CustomerInformationRequest.schema_keys →
      (CustomerInformationRequest.to_json j1 M).contains key = false) ∧
    (∀ (M : CustomerInformationResponse T) (key : String), key ∉ response_keys →
      (CustomerInformationResponse.to_json j1 M).contains key = false) ∧
    (∀ (M : SetMonitoringBaseRequest T) (key : String),
      key ∉ SetMonitoringBaseRequest.schema_keys →
      (SetMonitoringBaseRequest.to_json j1 M).contains key = false) ∧
    (∀ (M : SetMonitoringBaseResponse T) (key : String),
      key ∉ SetMonitoringBaseResponse.schema_keys →
      (SetMonitoringBaseResponse.to_json j1 M).contains key = false) := by
  refine ⟨fun _ => rfl, fun _ => rfl, fun _ => rfl, fun _ => rfl, ?_, ?_, ?_, ?_⟩
  · rintro ⟨r, b, c, cc, it, ci, cd⟩ key h_key
    simp only [CustomerInformationRequest.schema_keys, List.mem_cons, List.mem_singleton,
      List.not_mem_nil, or_false, not_or] at h_key
    obtain ⟨h1, h2, h3, h4, h5, h6, h7⟩ := h_key
    simp only [CustomerInformationRequest.to_json, of_pairs_request]
    cases cc <;> cases it <;> cases ci <;> cases cd <;>
      simp [Json.set, Json.contains, find_insert_or_assign, find, h1, h2, h3, h4, h5, h6, h7]
  · rintro ⟨e, si, cd⟩ key h_key
    simp only [response_keys, List.mem_cons, List.mem_singleton, List.not_mem_nil, or_false,
      not_or] at h_key
    obtain ⟨h1, h2, h3⟩ := h_key
    simp only [CustomerInformationResponse.to_json, of_pairs_singleton]
    cases si <;> cases cd <;>
      simp [Json.set, Json.contains, find_insert_or_assign, find, h1, h2, h3]
  · rintro ⟨e, cd⟩ key h_key
    simp only [SetMonitoringBaseRequest.schema_keys, List.mem_cons, List.mem_singleton,
      List.not_mem_nil, or_false, not_or] at h_key
    obtain ⟨h1, h2⟩ := h_key
    simp only [SetMonitoringBaseRequest.to_json, of_pairs_singleton]
    cases cd <;>
      simp [Json.set, Json.contains, find_insert_or_assign, find, h1, h2]
  · rintro ⟨e, si, cd⟩ key h_key
    simp only [SetMonitoringBaseResponse.schema_keys, List.mem_cons, List.mem_singleton,
      List.not_mem_nil, or_false, not_or] at h_key
    obtain ⟨h1, h2, h3⟩ := h_key
    simp only [SetMonitoringBaseResponse.to_json, of_pairs_singleton]
    cases si <;> cases cd <;>
      simp [Json.set, Json.contains, find_insert_or_assign, find, h1, h2, h3]

/-- Witness of C30: an output object that held the key `stale` and a string
under `requestId` before the call holds neither after it. -/
theorem encoding_ignores_previous_content_witness :
    sample_previous_output.contains "stale" = true ∧
    (CustomerInformationRequest.to_json sample_previous_output
      sample_customer_information_request).contains "stale" = false ∧
    (SetMonitoringBaseResponse.to_json sample_previous_output
      sample_set_monitoring_base_response).contains "stale" = false ∧
    CustomerInformationRequest.to_json sample_previous_output
      sample_customer_information_request =
      CustomerInformationRequest.to_json .null sample_customer_information_request :=
  ⟨rfl,
    (encoding_ignores_previous_content string_values sample_previous_output .null).2.2.2.2.1
      sample_customer_information_request "stale" (by decide),
    (encoding_ignores_previous_content string_values sample_previous_output
      .null).2.2.2.2.2.2.2 sample_set_monitoring_base_response "stale" (by decide),
    (encoding_ignores_previous_content string_values sample_previous_output .null).1
      sample_customer_information_request⟩

/-! ## Ill-typed required members, type names, security events -/

/-- C31: on a wire object whose `requestId` is a JSON string, null, array or
object, `from_json` of a CustomerInformation request throws the type error of
the conversion to a number and leaves the target as it was; on a wire object
whose `report`, or whose `clear`, is not a JSON boolean it throws as well, and
the field of the target keeps the value it had: no such value is coerced into
a field. -/
theorem ill_typed_required_values_rejected (T : ValueTypes) (members : List (String × Json))
    (v : Json) (k : CustomerInformationRequest T) :
    (find "requestId" members = some v → v.is_not_numeric = true →
      CustomerInformationRequest.from_json (.object members) k =
        .threw (.type_error_302 "number" v.type_name) k) ∧
    (find "report" members = some v → v.is_boolean = false →
      ∃ e k2, CustomerInformationRequest.from_json (.object members) k = .threw e k2 ∧
        k2.report = k.report) ∧
    (find "clear" members = some v → v.is_boolean = false →
      ∃ e k2, CustomerInformationRequest.from_json (.object members) k = .threw e k2 ∧
        k2.clear = k.clear) := by
  refine ⟨?_, ?_, ?_⟩
  · intro h_find h_type
    have h_at : (Json.object members).at_ "requestId" >>= get_int32 =
        .error (.type_error_302 "number" v.type_name) := by
      cases v <;> simp [Json.is_not_numeric] at h_type <;>
        simp [Json.at_, h_find, get_int32, bind, Except.bind]
    simp only [CustomerInformationRequest.from_json, h_at, assign, Outcome.and_then]
  · intro h_find h_type
    have h_at : (Json.object members).at_ "report" >>= get_bool =
        .error (.type_error_302 "boolean" v.type_name) := by
      cases v <;> simp [Json.is_boolean] at h_type <;>
        simp [Json.at_, h_find, get_bool, bind, Except.bind]
    simp only [CustomerInformationRequest.from_json, h_at, assign]
    cases (Json.object members).at_ "requestId" >>= get_int32 with
    | error e => exact ⟨e, k, rfl, rfl⟩
    | ok r => exact ⟨_, _, rfl, rfl⟩
  · intro h_find h_type
    have h_at : (Json.object members).at_ "clear" >>= get_bool =
        .error (.type_error_302 "boolean" v.type_name) := by
      cases v <;> simp [Json.is_boolean] at h_type <;>
        simp [Json.at_, h_find, get_bool, bind, Except.bind]
    simp only [CustomerInformationRequest.from_json, h_at, assign]
    cases (Json.object members).at_ "requestId" >>= get_int32 with
    | error e => exact ⟨e, k, rfl, rfl⟩
    | ok r =>
      cases (Json.object members).at_ "report" >>= get_bool with
      | error e => exact ⟨e, _, rfl, rfl⟩
      | ok b => exact ⟨_, _, rfl, rfl⟩

/-- Witness of C31: a `requestId` that is a string, a `report` that is the
number 1, and a `clear` that is the string `false`. -/
theorem ill_typed_required_values_rejected_witness :
    CustomerInformationRequest.from_json
      (.object [("clear", .boolean false), ("report", .boolean true),
        ("requestId", .string "42")])
      (CustomerInformationRequest.default_constructed string_values) =
      .threw (.type_error_302 "number" "string")
        (CustomerInformationRequest.default_constructed string_values) ∧
    (∃ e k2, CustomerInformationRequest.from_json
      (.object [("clear", .boolean false), ("report", .number_unsigned 1),
        ("requestId", .number_unsigned 42)])
      (CustomerInformationRequest.default_constructed string_values) = .threw e k2 ∧
      k2.report = (CustomerInformationRequest.default_constructed string_values).report) ∧
    (∃ e k2, CustomerInformationRequest.from_json
      (.object [("clear", .string "false"), ("report", .boolean true),
        ("requestId", .number_unsigned 42)])
      sample_target = .threw e k2 ∧ k2.clear = sample_target.clear) :=
  ⟨(ill_typed_required_values_rejected string_values
      [("clear", .boolean false), ("report", .boolean true), ("requestId", .string "42")]
      (.string "42") (CustomerInformationRequest.default_constructed string_values)).1 rfl rfl,
    (ill_typed_required_values_rejected string_values
      [("clear", .boolean false), ("report", .number_unsigned 1),
        ("requestId", .number_unsigned 42)]
      (.number_unsigned 1)
      (CustomerInformationRequest.default_constructed string_values)).2.1 rfl rfl,
    (ill_typed_required_values_rejected string_values
      [("clear", .string "false"), ("report", .boolean true),
        ("requestId", .number_unsigned 42)]
      (.string "false") sample_target).2.2 rfl rfl⟩

/-- C32: for CustomerInformation and for SetMonitoringBase the type name of
the response is the type name of the request followed by `Response`, the type
name of the request does not end in `Request`, and the four type names are
pairwise distinct. -/
theorem type_names_related_and_distinct (T : ValueTypes)
    (a : CustomerInformationRequest T) (b : CustomerInformationResponse T)
    (c : SetMonitoringBaseRequest T) (d : SetMonitoringBaseResponse T) :
    b.get_type = a.get_type ++ "Response" ∧
    d.get_type = c.get_type ++ "Response" ∧
    ends_with a.get_type.toList "Request".toList = false ∧
    ends_with c.get_type.toList "Request".toList = false ∧
    [a.get_type, b.get_type, c.get_type, d.get_type].Nodup := by
  simp only [CustomerInformationRequest.get_type, CustomerInformationResponse.get_type,
    SetMonitoringBaseRequest.get_type, SetMonitoringBaseResponse.get_type]
  decide

/-- C33: the 23 identifiers of `namespace security_events` are pairwise
distinct and none is empty, so the position of an identifier in the list of
definitions, the security event, is determined by the string. -/
theorem security_events_distinct :
    security_events.identifiers.length = 23 ∧
    security_events.identifiers.Nodup ∧
    (∀ s ∈ security_events.identifiers, s ≠ "") ∧
    (∀ i j : Fin security_events.identifiers.length,
      security_events.identifiers.get i = security_events.identifiers.get j → i = j) := by
  have h_nodup : security_events.identifiers.Nodup := by decide
  refine ⟨rfl, h_nodup, by decide, ?_⟩
  intro i j h
  exact (List.Nodup.get_inj_iff h_nodup).1 h

end v2

end ocpp
